import Mathlib

/-
  Verification development for the physicsRus 2D rigid-body core.

  The JavaScript source under verification consists of two pieces:
  the RopeJoint sequential-impulse solver and the Space world stepper
  (registry, broad phase, velocity/position solver loops, sleeping,
  scene serialization).  Each namespace below embeds one phase of that
  code as Lean definitions over the real numbers; JS numbers are
  idealized as exact reals (the usual shallow-embedding convention:
  division by zero yields 0 in Lean, while IEEE yields Infinity/NaN —
  divergences of this kind are flagged explicitly where they matter).
-/

namespace PhysRus

/-- Modelled from the spec: 2D math primitives (the vector module is not
part of the sources under verification).  A 2D vector over ℝ. -/
structure Vec2 where
  x : ℝ
  y : ℝ

namespace Vec2

/-- Modelled from the spec: componentwise vector addition. -/
def add (a b : Vec2) : Vec2 := ⟨a.x + b.x, a.y + b.y⟩

/-- Modelled from the spec: componentwise vector subtraction. -/
def sub (a b : Vec2) : Vec2 := ⟨a.x - b.x, a.y - b.y⟩

/-- Modelled from the spec: scalar multiple `vec2.scale(v, s)`. -/
def scale (v : Vec2) (s : ℝ) : Vec2 := ⟨v.x * s, v.y * s⟩

/-- Modelled from the spec: dot product. -/
def dot (a b : Vec2) : ℝ := a.x * b.x + a.y * b.y

/-- Modelled from the spec: scalar 2D cross product `vec2.cross(a, b)`. -/
def cross (a b : Vec2) : ℝ := a.x * b.y - a.y * b.x

/-- Modelled from the spec: the zero vector `vec2.zero`. -/
def zero : Vec2 := ⟨0, 0⟩

/-- Modelled from the spec: Euclidean norm `v.length()`. -/
noncomputable def length (v : Vec2) : ℝ := Real.sqrt (v.x * v.x + v.y * v.y)

/-- Modelled from the spec: rotation of a vector by an angle. -/
noncomputable def rotate (v : Vec2) (a : ℝ) : Vec2 :=
  ⟨v.x * Real.cos a - v.y * Real.sin a, v.x * Real.sin a + v.y * Real.cos a⟩

/-- Modelled from the spec: `v.mad(j, s)` adds `s` times `j` to `v`
(multiply-add, used to apply impulses scaled by inverse mass). -/
def mad (v j : Vec2) (s : ℝ) : Vec2 := ⟨v.x + j.x * s, v.y + j.y * s⟩

end Vec2

/-- Modelled from the spec: `Math.clamp(x, lo, hi)` from the math utilities. -/
noncomputable def clampR (x lo hi : ℝ) : ℝ := min (max x lo) hi

/-- Modelled from the spec: `Joint.LINEAR_SLOP ≈ 0.5e-2`
(the `Joint` base class is not among the sources; only the constant's value
comes from the spec — the claims below depend only on its name). -/
noncomputable def LINEAR_SLOP : ℝ := 0.005

/-- Modelled from the spec: `Joint.MAX_LINEAR_CORRECTION ≈ 0.2`. -/
noncomputable def MAX_LINEAR_CORRECTION : ℝ := 0.2

/-- Modelled from the spec: the limit-state enum
{inactive, atLower, atUpper, equal} of the Joint base class. -/
inductive LimitState where
  | inactive
  | atLower
  | atUpper
  | equalLimits
deriving DecidableEq

namespace Rope

/-- Modelled from the spec: the body state read and written by the
RopeJoint solver — pose `p`/`a`, local centroid, velocities `v`/`w` and
inverse mass/inertia (a zero inverse denotes an immovable axis). -/
structure SBody where
  p : Vec2
  a : ℝ
  centroid : Vec2
  v : Vec2
  w : ℝ
  m_inv : ℝ
  i_inv : ℝ

/-- The RopeJoint state: persistent fields (`anchor1/2` in body-local
coordinates, `maxDistance`, `maxForce`, accumulated `lambda_acc`) plus the
fields `initSolver` caches (`r1 r2 u s1 s2 em cdt distance limitState
maxImpulse`), exactly the fields the source stores on `this`. -/
structure Joint where
  anchor1 : Vec2
  anchor2 : Vec2
  maxDistance : ℝ
  maxForce : ℝ
  lambda_acc : ℝ
  r1 : Vec2
  r2 : Vec2
  u : Vec2
  s1 : ℝ
  s2 : ℝ
  em : ℝ
  cdt : ℝ
  distance : ℝ
  limitState : LimitState
  maxImpulse : ℝ

/-- The transformed `r1 = rotate(anchor1 - centroid1, a1)` computed both by
`initSolver` (source line 65) and by `solvePositionConstraints`
(source line 147). -/
noncomputable def anchorR1 (j : Joint) (b1 : SBody) : Vec2 :=
  Vec2.rotate (Vec2.sub j.anchor1 b1.centroid) b1.a

/-- The transformed `r2` (source lines 66 and 148). -/
noncomputable def anchorR2 (j : Joint) (b2 : SBody) : Vec2 :=
  Vec2.rotate (Vec2.sub j.anchor2 b2.centroid) b2.a

/-- The delta vector `d` between the two world anchors
(source lines 69 and 151). -/
noncomputable def anchorDelta (j : Joint) (b1 b2 : SBody) : Vec2 :=
  Vec2.sub (Vec2.add b2.p (anchorR2 j b2)) (Vec2.add b1.p (anchorR1 j b1))

/-- The distance between the two world anchors (source lines 72 and 154).
In `solvePositionConstraints` the source divides by this value with no
guard (`u = vec2.scale(d, 1 / dist)`, line 157). -/
noncomputable def anchorDist (j : Joint) (b1 b2 : SBody) : ℝ :=
  (anchorDelta j b1 b2).length

/-- The unit delta vector `u` of `initSolver` (source lines 86–91): the
normalized delta when the distance exceeds `LINEAR_SLOP`, else zero. -/
noncomputable def initU (j : Joint) (b1 b2 : SBody) : Vec2 :=
  if anchorDist j b1 b2 > LINEAR_SLOP then
    Vec2.scale (anchorDelta j b1 b2) (1 / anchorDist j b1 b2)
  else Vec2.zero

/-- `s1 = cross(r1, u)` of `initSolver` (source line 94). -/
noncomputable def initS1 (j : Joint) (b1 b2 : SBody) : ℝ :=
  Vec2.cross (anchorR1 j b1) (initU j b1 b2)

/-- `s2 = cross(r2, u)` of `initSolver` (source line 95). -/
noncomputable def initS2 (j : Joint) (b1 b2 : SBody) : ℝ :=
  Vec2.cross (anchorR2 j b2) (initU j b1 b2)

/-- The effective-mass denominator `em_inv = J·invM·Jᵀ` of `initSolver`
(source line 98). -/
noncomputable def initEmInv (j : Joint) (b1 b2 : SBody) : ℝ :=
  b1.m_inv + b2.m_inv + b1.i_inv * initS1 j b1 b2 * initS1 j b1 b2
    + b2.i_inv * initS2 j b1 b2 * initS2 j b1 b2

/-- The effective mass `em` of `initSolver` (source line 99): zero when the
denominator is zero, else its reciprocal. -/
noncomputable def initEm (j : Joint) (b1 b2 : SBody) : ℝ :=
  if initEmInv j b1 b2 = 0 then 0 else 1 / initEmInv j b1 b2

/-- Embedding of `RopeJoint.prototype.initSolver(dt, warmStarting)`
(source lines 57–115).  Returns the updated joint and the two updated
bodies (warm starting applies the cached impulse to the velocities;
otherwise the accumulator is cleared). -/
noncomputable def initSolver (dt : ℝ) (warmStarting : Bool)
    (j : Joint) (b1 b2 : SBody) : Joint × SBody × SBody :=
  let c := anchorDist j b1 b2 - j.maxDistance
  let j1 : Joint :=
    { j with maxImpulse := j.maxForce * dt,
             r1 := anchorR1 j b1, r2 := anchorR2 j b2,
             distance := anchorDist j b1 b2,
             cdt := if c > 0 then (0 : ℝ) else c / dt,
             limitState := if c > 0 then LimitState.atUpper else LimitState.inactive,
             u := initU j b1 b2,
             s1 := initS1 j b1 b2, s2 := initS2 j b1 b2,
             em := initEm j b1 b2,
             lambda_acc := if warmStarting then j.lambda_acc else 0 }
  if warmStarting then
    let jv := Vec2.scale (initU j b1 b2) j.lambda_acc
    (j1,
     { b1 with v := Vec2.mad b1.v jv (-b1.m_inv),
               w := b1.w - initS1 j b1 b2 * j.lambda_acc * b1.i_inv },
     { b2 with v := Vec2.mad b2.v jv b2.m_inv,
               w := b2.w + initS2 j b1 b2 * j.lambda_acc * b2.i_inv })
  else
    (j1, b1, b2)

/-- Embedding of `RopeJoint.prototype.solveVelocityConstraints()`
(source lines 117–140). -/
noncomputable def solveVelocityConstraints
    (j : Joint) (b1 b2 : SBody) : Joint × SBody × SBody :=
  let cdot := j.u.dot (Vec2.sub b2.v b1.v) + j.s2 * b2.w - j.s1 * b1.w
  let lam0 := -j.em * (cdot + j.cdt)
  let lambda_old := j.lambda_acc
  let acc := min (lambda_old + lam0) 0
  let lam := acc - lambda_old
  let jv := Vec2.scale j.u lam
  ({ j with lambda_acc := acc },
   { b1 with v := Vec2.mad b1.v jv (-b1.m_inv),
             w := b1.w - j.s1 * lam * b1.i_inv },
   { b2 with v := Vec2.mad b2.v jv b2.m_inv,
             w := b2.w + j.s2 * lam * b2.i_inv })

/-- Embedding of `RopeJoint.prototype.solvePositionConstraints()`
(source lines 142–181).  NOTE: line 157 of the source divides by `dist`
unconditionally; under Lean's real-number convention `1/0 = 0`, so this
embedding yields `u = 0` when the anchors coincide, whereas the IEEE
semantics of the source produce NaN there. -/
noncomputable def solvePositionConstraints
    (j : Joint) (b1 b2 : SBody) : SBody × SBody × Bool :=
  let r1 := anchorR1 j b1
  let r2 := anchorR2 j b2
  let d := anchorDelta j b1 b2
  let dist := anchorDist j b1 b2
  let u := Vec2.scale d (1 / dist)
  let c := dist - j.maxDistance
  let correction := clampR c 0 MAX_LINEAR_CORRECTION
  let s1 := Vec2.cross r1 u
  let s2 := Vec2.cross r2 u
  let em_inv := b1.m_inv + b2.m_inv + b1.i_inv * s1 * s1 + b2.i_inv * s2 * s2
  let lam := if em_inv = 0 then (0 : ℝ) else -correction / em_inv
  let jv := Vec2.scale u lam
  ({ b1 with p := Vec2.mad b1.p jv (-b1.m_inv), a := b1.a - s1 * lam * b1.i_inv },
   { b2 with p := Vec2.mad b2.p jv b2.m_inv, a := b2.a + s2 * lam * b2.i_inv },
   decide (c < LINEAR_SLOP))

end Rope

namespace Damp

/-- Modelled from the spec: the body state touched by velocity integration —
kind and wake flags, velocities, accumulated force/torque and the inverse
mass/inertia. -/
structure DBody where
  dynamic : Bool
  awakeFlag : Bool
  v : Vec2
  w : ℝ
  force : Vec2
  torque : ℝ
  m_inv : ℝ
  i_inv : ℝ

/-- Modelled from the spec: `Body.updateVelocity(gravity, damping, dt)`
applies `v ← damping·(v + Δt·(gravity + f/m))` and
`w ← damping·(w + Δt·τ/i)`, with `f/m` and `τ/i` taken through the stored
inverses (a zero inverse denotes an immovable axis). -/
noncomputable def updateVelocity (b : DBody) (gravity : Vec2) (damping dt : ℝ) :
    DBody :=
  { b with
    v := Vec2.scale
          (Vec2.add b.v (Vec2.scale (Vec2.add gravity (Vec2.scale b.force b.m_inv)) dt))
          damping,
    w := damping * (b.w + dt * b.torque * b.i_inv) }

/-- The per-step damping factor computed by `Space.step` (source line 711):
`this.damping < 1 ? Math.pow(this.damping, dt) : 1`. -/
noncomputable def dampingFactor (damping dt : ℝ) : ℝ :=
  if damping < 1 then Real.rpow damping dt else 1

/-- Embedding of the velocity-integration phase of `Space.step`
(source lines 710–717): every dynamic awake body integrates external
forces with the per-step damping factor; other bodies are untouched. -/
noncomputable def integrateVelocities (bodies : List DBody) (gravity : Vec2)
    (damping dt : ℝ) : List DBody :=
  bodies.map fun b =>
    if b.dynamic && b.awakeFlag then updateVelocity b gravity (dampingFactor damping dt) dt
    else b

/-- Default body used as the `List.getD` fallback in statements. -/
noncomputable def ddef : DBody :=
  { dynamic := false, awakeFlag := false, v := ⟨0, 0⟩, w := 0,
    force := ⟨0, 0⟩, torque := 0, m_inv := 0, i_inv := 0 }

/-- Concrete awake dynamic body with `v = (1,0)` and `w = 1` used by the
C9 counterexample and witness. -/
noncomputable def bodyD : DBody :=
  { dynamic := true, awakeFlag := true, v := ⟨1, 0⟩, w := 1,
    force := ⟨0, 0⟩, torque := 0, m_inv := 1, i_inv := 1 }

end Damp

/-- Modelled from the spec: degrees-to-radians conversion from the math
utilities, used for `Space.SLEEP_ANGULAR_TOLERANCE = deg2rad(2)`. -/
noncomputable def deg2rad (x : ℝ) : ℝ := x * (Real.pi / 180)

namespace Sleep

/-- `Space.TIME_TO_SLEEP = 0.5` (source line 205). -/
noncomputable def TIME_TO_SLEEP : ℝ := 0.5

/-- `Space.SLEEP_LINEAR_TOLERANCE = 0.5` (source line 206). -/
noncomputable def SLEEP_LINEAR_TOLERANCE : ℝ := 0.5

/-- `Space.SLEEP_ANGULAR_TOLERANCE = deg2rad(2)` (source line 207). -/
noncomputable def SLEEP_ANGULAR_TOLERANCE : ℝ := deg2rad 2

/-- Modelled from the spec: the body state touched by the sleep block —
kind, wake flag, accumulated `sleepTime` and the velocities. -/
structure ZBody where
  dynamic : Bool
  awakeFlag : Bool
  sleepTime : ℝ
  v : Vec2
  w : ℝ

/-- The reset condition of the sleep scan (source line 792):
`body.w² > angTolSqr || body.v·body.v > linTolSqr`. -/
def tolExceeded (b : ZBody) : Prop :=
  b.w * b.w > SLEEP_ANGULAR_TOLERANCE * SLEEP_ANGULAR_TOLERANCE
  ∨ b.v.dot b.v > SLEEP_LINEAR_TOLERANCE * SLEEP_LINEAR_TOLERANCE

noncomputable instance (b : ZBody) : Decidable (tolExceeded b) := by
  unfold tolExceeded
  infer_instance

/-- Modelled from the spec: `Body.awake(flag)` sets the wake flag and
resets `sleepTime` when waking (only `awake(false)` is exercised by the
claims below). -/
noncomputable def awakeSet (b : ZBody) (flag : Bool) : ZBody :=
  if flag then { b with awakeFlag := true, sleepTime := 0 }
  else { b with awakeFlag := false }

/-- Embedding of the first sleep loop of `Space.step` (source lines
785–800): each dynamic body either resets its `sleepTime` (forcing the
running minimum to zero) or accumulates `dt` (folding the updated value
into the running minimum, which starts at 999999). -/
noncomputable def sleepScan (dt : ℝ) : List ZBody → ℝ → List ZBody × ℝ
  | [], m => ([], m)
  | b :: rest, m =>
    if b.dynamic = false then
      let r := sleepScan dt rest m
      (b :: r.1, r.2)
    else if tolExceeded b then
      let r := sleepScan dt rest 0
      ({ b with sleepTime := 0 } :: r.1, r.2)
    else
      let r := sleepScan dt rest (min m (b.sleepTime + dt))
      ({ b with sleepTime := b.sleepTime + dt } :: r.1, r.2)

/-- Embedding of the whole sleep block of `Space.step` (source lines
779–808), i.e. the body of `if (allowSleep)`: scan all bodies, then, when
the position solver reported solved and the accumulated minimum reaches
`TIME_TO_SLEEP`, put every body to sleep. -/
noncomputable def processSleep (bodies : List ZBody) (dt : ℝ)
    (positionSolved : Bool) : List ZBody :=
  if positionSolved = true ∧ TIME_TO_SLEEP ≤ (sleepScan dt bodies 999999).2 then
    (sleepScan dt bodies 999999).1.map (fun b => awakeSet b false)
  else
    (sleepScan dt bodies 999999).1

/-- The per-body effect of the sleep scan (derived characterization used
by the lemmas below). -/
noncomputable def sleepBody (dt : ℝ) (b : ZBody) : ZBody :=
  if b.dynamic = false then b
  else if tolExceeded b then { b with sleepTime := 0 }
  else { b with sleepTime := b.sleepTime + dt }

/-- Default body used as the `List.getD` fallback in statements. -/
noncomputable def zdef : ZBody :=
  { dynamic := false, awakeFlag := false, sleepTime := 0, v := ⟨0, 0⟩, w := 0 }

/-- Concrete still dynamic body (zero velocities). -/
noncomputable def bzA : ZBody :=
  { dynamic := true, awakeFlag := true, sleepTime := 0, v := ⟨0, 0⟩, w := 0 }

/-- Concrete moving dynamic body (unit linear velocity, above tolerance). -/
noncomputable def bzB : ZBody :=
  { dynamic := true, awakeFlag := true, sleepTime := 0, v := ⟨1, 0⟩, w := 0 }

end Sleep

namespace PosIter

variable {σ : Type}

/-- One inner loop of `Space.positionSolver` (source lines 675–678 and
680–683): run `solvePositionConstraints` on every solver in order,
threading the world state `σ` and accumulating `ok && acc` exactly as
`contactsOk`/`jointsOk` are accumulated.  Contact solvers and joints are
abstracted as state transformers `σ → σ × Bool` (their internals are
separate components of the program). -/
def solveAllPosition : List (σ → σ × Bool) → σ → Bool → σ × Bool
  | [], s, acc => (s, acc)
  | f :: rest, s, acc =>
    let r := f s
    solveAllPosition rest r.1 (r.2 && acc)

/-- One round of `Space.positionSolver` (source lines 671–689): all
contact solvers, then all joints; returns the new state and the two
`ok` flags. -/
def solveRound (contacts joints : List (σ → σ × Bool)) (s : σ) : σ × Bool × Bool :=
  let rc := solveAllPosition contacts s true
  let rj := solveAllPosition joints rc.1 true
  (rj.1, rc.2, rj.2)

/-- Result of `Space.positionSolver`: final world state, the returned
`positionSolved` flag, and `stats.positionIterations`. -/
structure PSResult (σ : Type) where
  state : σ
  solved : Bool
  iters : ℕ

/-- Embedding of the loop of `Space.prototype.positionSolver` (source
lines 664–697): up to `n` rounds, breaking with `positionSolved = true`
as soon as both flags hold (before the `positionIterations` increment). -/
def positionSolverLoop (contacts joints : List (σ → σ × Bool)) :
    ℕ → σ → ℕ → PSResult σ
  | 0, s, acc => ⟨s, false, acc⟩
  | n + 1, s, acc =>
    let r := solveRound contacts joints s
    if r.2.1 && r.2.2 then ⟨r.1, true, acc⟩
    else positionSolverLoop contacts joints n r.1 (acc + 1)

/-- `Space.prototype.positionSolver(iteration)` (source lines 664–697),
starting with `stats.positionIterations = 0`. -/
def positionSolver (contacts joints : List (σ → σ × Bool)) (iteration : ℕ)
    (s : σ) : PSResult σ :=
  positionSolverLoop contacts joints iteration s 0

/-- The state after one round (derived characterization). -/
def roundState (contacts joints : List (σ → σ × Bool)) (s : σ) : σ :=
  (solveRound contacts joints s).1

/-- Whether a round starting from `s` reports every contact solver and
every joint OK (derived characterization). -/
def roundOk (contacts joints : List (σ → σ × Bool)) (s : σ) : Bool :=
  (solveRound contacts joints s).2.1 && (solveRound contacts joints s).2.2

/-- Whether round number `k` of the sequential run from `s` reports all
OK (derived characterization). -/
def okAt (contacts joints : List (σ → σ × Bool)) (s : σ) (k : ℕ) : Bool :=
  roundOk contacts joints ((roundState contacts joints)^[k] s)

/-- Concrete contact-solver list over `σ := ℕ` for the witness: one
solver that increments the state and reports OK from state 2 on. -/
def contactsW : List (ℕ → ℕ × Bool) := [fun s => (s + 1, decide (2 ≤ s))]

/-- Concrete empty joint list for the witness. -/
def jointsW : List (ℕ → ℕ × Bool) := []

end PosIter

namespace Broad

/-- Modelled from the spec: the body state read by the broad phase — the
last-step-touched counter `stepCount`, wake and static flags, the cached
world AABB `bounds` (kept abstract as `β`) and the shape list (shapes kept
abstract as `σ`). -/
structure BBody (σ β : Type) where
  stepCount : Int
  awakeFlag : Bool
  staticFlag : Bool
  bounds : β
  shapeArr : List σ

/-- The fields of a `ContactSolver` the broad phase touches: the ordered
shape pair, the contact list (contacts abstract as `γ`) and the combined
restitution/friction `e`/`u` (source lines 609–612). -/
structure CSolver (σ γ : Type) where
  shape1 : σ
  shape2 : σ
  contactArr : List γ
  e : ℝ
  u : ℝ

/-- The external collaborators consumed by
`Space.genTemporalContactSolvers`: shape accessors, the narrow-phase
`collision.collide` kernel (empty list ⇔ it returned false),
`ContactSolver.update`, `Bounds.intersectsBounds` and
`Body.isCollidable` — none of these are part of the sources under
verification, so they are parameters of the embedding. -/
structure BParams (σ β γ : Type) where
  shapeType : σ → Int
  shapeE : σ → ℝ
  shapeU : σ → ℝ
  collide : σ → σ → List γ
  csUpdate : CSolver σ γ → List γ → CSolver σ γ
  intersects : β → β → Bool
  collidable : BBody σ β → BBody σ β → Bool

/-- One pair examined by the broad phase (i.e. one inner-loop iteration
that passed the stepCount watermark): the two body indices, the two body
snapshots the checks read, and the contact solvers the pair contributed
to `newContactSolverArr`. -/
structure TraceEntry (σ β γ : Type) where
  i : ℕ
  j : ℕ
  b1 : BBody σ β
  b2 : BBody σ β
  solvers : List (CSolver σ γ)

variable {σ β γ : Type} [DecidableEq σ]

/-- Embedding of `Space.prototype.findContactSolver(shape1, shape2)`
(source lines 538–547): linear search of the previous step's solver list
for the exact shape pair. -/
def findContactSolver (prev : List (CSolver σ γ)) (s1 s2 : σ) :
    Option (CSolver σ γ) :=
  prev.find? (fun cs => decide (s1 = cs.shape1) && decide (s2 = cs.shape2))

/-- One iteration of the shape-pair double loop (source lines 584–614):
narrow phase, canonical ordering swap (`shape1.type ≤ shape2.type`), then
either update of the persistent solver or creation of a fresh one.  The
second component records whether a fresh solver was created (in which case
the source wakes both bodies). -/
noncomputable def shapePairStep (P : BParams σ β γ) (prev : List (CSolver σ γ))
    (s1 s2 : σ) : Option (CSolver σ γ) × Bool :=
  let contactArr := P.collide s1 s2
  if contactArr.isEmpty then (none, false)
  else
    let sw := P.shapeType s1 > P.shapeType s2
    let t1 := if sw then s2 else s1
    let t2 := if sw then s1 else s2
    match findContactSolver prev t1 t2 with
    | some cs => (some (P.csUpdate cs contactArr), false)
    | none =>
      (some { shape1 := t1, shape2 := t2, contactArr := contactArr,
              e := max (P.shapeE t1) (P.shapeE t2),
              u := Real.sqrt (P.shapeU t1 * P.shapeU t2) }, true)

/-- All shape-pair results of one body pair, in loop order
(source lines 582–616). -/
noncomputable def pairResults (P : BParams σ β γ) (prev : List (CSolver σ γ))
    (shapes1 shapes2 : List σ) : List (Option (CSolver σ γ) × Bool) :=
  (shapes1.map (fun s1 => shapes2.map (fun s2 => shapePairStep P prev s1 s2))).flatten

/-- The contact solvers a body pair pushes onto `newContactSolverArr`. -/
noncomputable def pairSolvers (P : BParams σ β γ) (prev : List (CSolver σ γ))
    (shapes1 shapes2 : List σ) : List (CSolver σ γ) :=
  (pairResults P prev shapes1 shapes2).filterMap Prod.fst

/-- Whether a body pair created at least one fresh solver, in which case
the source calls `body1.awake(true); body2.awake(true)`
(source lines 606–607). -/
noncomputable def pairAnyNew (P : BParams σ β γ) (prev : List (CSolver σ γ))
    (shapes1 shapes2 : List σ) : Bool :=
  (pairResults P prev shapes1 shapes2).any Prod.snd

/-- Modelled from the spec: `body.awake(true)` as the broad phase uses it —
setting the wake flag of the body at index `k` (repeated setting inside
the shape loop is idempotent on the flag, so it is applied once per
body pair here). -/
def wakeBody (f : ℕ → BBody σ β) (k : ℕ) : ℕ → BBody σ β :=
  Function.update f k { f k with awakeFlag := true }

/-- The inner loop of `Space.prototype.genTemporalContactSolvers`
(source lines 560–617) for the outer body at index `k`: iterate over all
body indices `ms`, skip on the stepCount watermark, and for each examined
pair record a trace entry (with empty `solvers` when one of the three
skip checks fires, and the pair's solver list when they all pass,
waking both bodies when a fresh solver was created).  The body table is
the mutable state `f : ℕ → BBody`. -/
noncomputable def innerLoop (P : BParams σ β γ) (prev : List (CSolver σ γ))
    (k : ℕ) : List ℕ → (ℕ → BBody σ β) →
      ((ℕ → BBody σ β) × List (TraceEntry σ β γ))
  | [], f => (f, [])
  | m :: ms, f =>
    let b1 := f k
    let b2 := f m
    if b1.stepCount = b2.stepCount then innerLoop P prev k ms f
    else
      let active1 := b1.awakeFlag && !b1.staticFlag
      let active2 := b2.awakeFlag && !b2.staticFlag
      if (!active1 && !active2) = true then
        let r := innerLoop P prev k ms f
        (r.1, ⟨k, m, b1, b2, []⟩ :: r.2)
      else if P.collidable b1 b2 = false then
        let r := innerLoop P prev k ms f
        (r.1, ⟨k, m, b1, b2, []⟩ :: r.2)
      else if P.intersects b1.bounds b2.bounds = false then
        let r := innerLoop P prev k ms f
        (r.1, ⟨k, m, b1, b2, []⟩ :: r.2)
      else
        let solvers := pairSolvers P prev b1.shapeArr b2.shapeArr
        let f2 := if pairAnyNew P prev b1.shapeArr b2.shapeArr
                  then wakeBody (wakeBody f k) m else f
        let r := innerLoop P prev k ms f2
        (r.1, ⟨k, m, b1, b2, solvers⟩ :: r.2)

/-- The outer loop of `Space.prototype.genTemporalContactSolvers`
(source lines 555–618): for each body index in `ks`, stamp its
`stepCount` with the current step's counter `S`
(`body1.stepCount = this.stepCount`, line 558) and run the inner loop
over the whole table `all`. -/
noncomputable def outerLoop (P : BParams σ β γ) (prev : List (CSolver σ γ))
    (S : Int) (all : List ℕ) : List ℕ → (ℕ → BBody σ β) →
      ((ℕ → BBody σ β) × List (TraceEntry σ β γ))
  | [], f => (f, [])
  | k :: ks, f =>
    let f1 := Function.update f k { f k with stepCount := S }
    let r := innerLoop P prev k all f1
    let r2 := outerLoop P prev S all ks r.1
    (r2.1, r.2 ++ r2.2)

/-- Embedding of `Space.prototype.genTemporalContactSolvers` (source
lines 549–623) over a body table of `n` bodies, instrumented to return
the final body table together with the trace of examined pairs.
`stats`/timing fields and the `numContacts` accumulator are not
modelled. -/
noncomputable def genTrace (P : BParams σ β γ) (prev : List (CSolver σ γ))
    (S : Int) (n : ℕ) (f : ℕ → BBody σ β) :
    ((ℕ → BBody σ β) × List (TraceEntry σ β γ)) :=
  outerLoop P prev S (List.range n) (List.range n) f

/-- The `newContactSolverArr` the source returns: the concatenation, in
examination order, of the solvers contributed by each examined pair. -/
noncomputable def genTemporalContactSolvers (P : BParams σ β γ)
    (prev : List (CSolver σ γ)) (S : Int) (n : ℕ) (f : ℕ → BBody σ β) :
    List (CSolver σ γ) :=
  ((genTrace P prev S n f).2.map TraceEntry.solvers).flatten

end Broad

/-- Concrete rope joint used by witnesses and counterexamples: both local
anchors at the origin, rope length 1, cached solver fields zeroed. -/
noncomputable def jointW : Rope.Joint :=
  { anchor1 := ⟨0, 0⟩, anchor2 := ⟨0, 0⟩, maxDistance := 1, maxForce := 0,
    lambda_acc := 0, r1 := ⟨0, 0⟩, r2 := ⟨0, 0⟩, u := ⟨0, 0⟩, s1 := 0, s2 := 0,
    em := 0, cdt := 0, distance := 0, limitState := LimitState.inactive,
    maxImpulse := 0 }

/-- Concrete movable body at the origin (unit inverse mass and inertia) used
by witnesses and counterexamples. -/
noncomputable def bodyW : Rope.SBody :=
  { p := ⟨0, 0⟩, a := 0, centroid := ⟨0, 0⟩, v := ⟨0, 0⟩, w := 0,
    m_inv := 1, i_inv := 1 }

namespace Scene

/-- Modelled from the spec: the body kinds `Body.STATIC` / `Body.DYNAMIC`
as `Space.create` distinguishes them. -/
inductive BodyType where
  | staticBody
  | dynamicBody
deriving DecidableEq

/-- Modelled from the spec: shape geometry for the three shape kinds the
scene format knows (circle, capsule segment, convex polygon). -/
inductive ShapeGeom where
  | circle (center : Vec2) (radius : ℝ)
  | segment (a b : Vec2) (radius : ℝ)
  | poly (verts : List Vec2)

/-- Modelled from the spec: a shape — geometry plus the material fields
`e`, `u`, `density` that `Space.create` assigns.  Shape ids
(`Shape.id_counter`) are not modelled: no claim below observes them. -/
structure ShapeT where
  geom : ShapeGeom
  e : ℝ
  u : ℝ
  density : ℝ

/-- Modelled from the spec: the constructor payload of each joint kind
`Space.create` can build, plus the RopeJoint payload (local anchors and
rope length) — the concrete joint classes other than RopeJoint are not
among the sources, so their payloads simply record the constructor
arguments. -/
inductive JointKind where
  | angle
  | revolute (anchor : Vec2) (limitEnabled : Bool) (limitLower limitUpper : ℝ)
      (motorEnabled : Bool) (motorSpeed maxMotorTorque : ℝ)
  | weld (anchor : Vec2)
  | distance (anchor1 anchor2 : Vec2) (frequencyHz ratioDamping : ℝ)
  | line (anchor1 anchor2 : Vec2) (motorEnabled : Bool)
      (motorSpeed maxMotorTorque : ℝ)
  | prismatic (anchor1 anchor2 : Vec2)
  | rope (anchor1 anchor2 : Vec2) (maxDistance : ℝ)

/-- A joint as the Space registry holds it: id, the two body ids (JS holds
object references; bodies are identified by id here), the kind payload and
the common fields `Space.create` assigns after the switch. -/
structure JointT where
  id : ℕ
  body1Id : ℕ
  body2Id : ℕ
  kind : JointKind
  collideConnected : Bool
  maxForce : ℝ
  breakable : Bool

/-- Modelled from the spec: a body as the Space registry holds it —
identity, kind, pose, shapes, the `body.jointHash` of attached joints and
the wake flag.  Mass data (`resetMassData`), cached world geometry
(`cacheData`) and the `body.space` back-reference are not modelled: no
claim below observes them. -/
structure BodyT where
  id : ℕ
  btype : BodyType
  pos : Vec2
  angle : ℝ
  shapes : List ShapeT
  jointList : List JointT
  awakeFlag : Bool

/-- The Space state for the registry and scene-I/O claims: the two
id-keyed tables (kept as insertion-ordered lists of values with unique
ids), the redundant `numBodies`/`numJoints` counters the source
maintains, `stepCount`, and the process-wide `Body.id_counter` /
`Joint.id_counter` globals that `Space.clear` resets (the contact-solver
list is modelled with the broad phase, not here). -/
structure SpaceT where
  bodyHash : List BodyT
  numBodies : ℕ
  jointHash : List JointT
  numJoints : ℕ
  stepCount : Int
  bodyIdCounter : ℕ
  jointIdCounter : ℕ

/-- The Space constructor (source lines 189–203): empty tables, zero
counters (gravity/damping are handled in the damping model). -/
def emptySpace : SpaceT :=
  { bodyHash := [], numBodies := 0, jointHash := [], numJoints := 0,
    stepCount := 0, bodyIdCounter := 0, jointIdCounter := 0 }

/-- `this.bodyHash[id]` — lookup of a body by id. -/
def lookupBody (s : SpaceT) (i : ℕ) : Option BodyT :=
  s.bodyHash.find? (fun b => decide (b.id = i))

/-- `this.jointHash[id]` — lookup of a joint by id. -/
def lookupJoint (s : SpaceT) (i : ℕ) : Option JointT :=
  s.jointHash.find? (fun j => decide (j.id = i))

/-- Apply `g` to the body with id `i` in a body table (the JS code
mutates the body object; bodies outside the table are unaffected from
the Space's point of view). -/
def mapBody (h : List BodyT) (i : ℕ) (g : BodyT → BodyT) : List BodyT :=
  h.map (fun b => if b.id = i then g b else b)

/-- `body.jointHash[joint.id] = joint` — keyed assignment into a body's
joint table (idempotent on the key, as a JS object assignment is). -/
def jsSetJoint (l : List JointT) (j : JointT) : List JointT :=
  if l.any (fun j2 => decide (j2.id = j.id)) then
    l.map (fun j2 => if j2.id = j.id then j else j2)
  else l ++ [j]

/-- Embedding of `Space.prototype.addBody(body)` (source lines 322–333):
guarded on the id already being registered; otherwise registers the body,
bumps `numBodies` and wakes it (`cacheData`/`space` back-pointer not
modelled). -/
def addBody (s : SpaceT) (b : BodyT) : SpaceT :=
  if (lookupBody s b.id).isSome then s
  else
    { s with bodyHash := s.bodyHash ++ [{ b with awakeFlag := true }],
             numBodies := s.numBodies + 1 }

/-- Embedding of `Space.prototype.addJoint(joint)` (source lines 350–363):
guarded on the id already being registered; otherwise wakes both bodies,
registers the joint, bumps `numJoints` and records the joint in both
bodies' joint tables. -/
def addJoint (s : SpaceT) (j : JointT) : SpaceT :=
  if (lookupJoint s j.id).isSome then s
  else
    let h1 := mapBody s.bodyHash j.body1Id (fun b => { b with awakeFlag := true })
    let h2 := mapBody h1 j.body2Id (fun b => { b with awakeFlag := true })
    let h3 := mapBody h2 j.body1Id (fun b => { b with jointList := jsSetJoint b.jointList j })
    let h4 := mapBody h3 j.body2Id (fun b => { b with jointList := jsSetJoint b.jointList j })
    { s with bodyHash := h4,
             jointHash := s.jointHash ++ [j],
             numJoints := s.numJoints + 1 }

/-- Embedding of `Space.prototype.removeJoint(joint)` (source lines
365–378): guarded on the id not being registered; otherwise wakes both
bodies, deletes the joint from both bodies' joint tables and from the
Space, and decrements `numJoints`. -/
def removeJoint (s : SpaceT) (j : JointT) : SpaceT :=
  if (lookupJoint s j.id).isSome then
    let h1 := mapBody s.bodyHash j.body1Id (fun b => { b with awakeFlag := true })
    let h2 := mapBody h1 j.body2Id (fun b => { b with awakeFlag := true })
    let h3 := mapBody h2 j.body1Id
      (fun b => { b with jointList := b.jointList.filter (fun j2 => decide (j2.id ≠ j.id)) })
    let h4 := mapBody h3 j.body2Id
      (fun b => { b with jointList := b.jointList.filter (fun j2 => decide (j2.id ≠ j.id)) })
    { s with bodyHash := h4,
             jointHash := s.jointHash.filter (fun j2 => decide (j2.id ≠ j.id)),
             numJoints := s.numJoints - 1 }
  else s

/-- Embedding of `Space.prototype.removeBody(body)` (source lines
335–348): guarded on the id not being registered; otherwise removes every
joint in the argument body's joint table (the cascade), then deletes the
body and decrements `numBodies` (`body.space = null` not modelled). -/
def removeBody (s : SpaceT) (b : BodyT) : SpaceT :=
  if (lookupBody s b.id).isSome then
    let s1 := b.jointList.foldl removeJoint s
    { s1 with bodyHash := s1.bodyHash.filter (fun b2 => decide (b2.id ≠ b.id)),
              numBodies := s1.numBodies - 1 }
  else s

/-- Embedding of `Space.prototype.clear()` (source lines 209–221): reset
the id counters, remove every body (cascading joint removal), reset
`stepCount` (the contact-solver list is not modelled here). -/
def clear (s : SpaceT) : SpaceT :=
  let s1 := { s with bodyIdCounter := 0, jointIdCounter := 0 }
  let s2 := s1.bodyHash.foldl removeBody s1
  { s2 with stepCount := 0 }

/-- Modelled from the spec: the JSON shape record of the scene format —
the union of the fields the three shape kinds use, plus the material
fields.  A zero vector / empty list stands for a JSON field the kind does
not emit. -/
structure ShapeCfg where
  stype : String
  center : Vec2
  radius : ℝ
  a : Vec2
  b : Vec2
  verts : List Vec2
  e : ℝ
  u : ℝ
  density : ℝ

/-- Modelled from the spec: the JSON body record
`{type, position, angle, shapes}`. -/
structure BodyCfg where
  btype : String
  position : Vec2
  angle : ℝ
  shapes : List ShapeCfg

/-- Modelled from the spec: the JSON joint record — `type`, the two body
ids and the union of the per-kind fields `Space.create` reads
(`ratioDamping` renders the source's damping-ratio field). -/
structure JointCfg where
  jtype : String
  body1 : ℕ
  body2 : ℕ
  anchor : Vec2
  anchor1 : Vec2
  anchor2 : Vec2
  limitEnabled : Bool
  limitLowerAngle : ℝ
  limitUpperAngle : ℝ
  motorEnabled : Bool
  motorSpeed : ℝ
  maxMotorTorque : ℝ
  frequencyHz : ℝ
  ratioDamping : ℝ
  collideConnected : Bool
  maxForce : ℝ
  breakable : Bool

/-- The parsed scene text `{bodies: [...], joints: [...]}`
(`JSON.parse` is external). -/
structure Config where
  bodies : List BodyCfg
  joints : List JointCfg

/-- The runtime error kind `Space.create` actually produces on invalid
scene input: a JavaScript `TypeError` from accessing a property of
`undefined` — the same kind for all three failure categories. -/
inductive JsErr where
  | typeError
deriving DecidableEq

/-- The shape `switch` of `Space.create` (source lines 254–264): the
three known kinds construct a shape; an unknown kind leaves the
function-scoped `shape` variable untouched (`none` here means no
constructor ran). -/
def shapeSwitch (cfg : ShapeCfg) : Option ShapeGeom :=
  if cfg.stype = "ShapeCircle" then some (ShapeGeom.circle cfg.center cfg.radius)
  else if cfg.stype = "ShapeSegment" then some (ShapeGeom.segment cfg.a cfg.b cfg.radius)
  else if cfg.stype = "ShapePoly" then some (ShapeGeom.poly cfg.verts)
  else none

/-- The shape loop of `Space.create` (source lines 250–271), threading
the function-scoped `var shape` (hoisted across iterations and bodies)
as `prev`.  An unknown kind with no previous shape dereferences
`undefined` at `shape.e = ...` — `none` result — while an unknown kind
after a successful construction silently reuses the previous shape
object (value semantics here: the earlier added copy keeps its old
material fields, whereas JS aliases them). -/
def loadShapesLoop : List ShapeCfg → Option ShapeT → List ShapeT →
    Option (List ShapeT × Option ShapeT)
  | [], prev, acc => some (acc, prev)
  | cfg :: rest, prev, acc =>
    match shapeSwitch cfg with
    | some g =>
      let sh : ShapeT := { geom := g, e := cfg.e, u := cfg.u, density := cfg.density }
      loadShapesLoop rest (some sh) (acc ++ [sh])
    | none =>
      match prev with
      | none => none
      | some psh =>
        let sh : ShapeT := { psh with e := cfg.e, u := cfg.u, density := cfg.density }
        loadShapesLoop rest (some sh) (acc ++ [sh])

/-- The body loop of `Space.create` (source lines 245–275): construct the
body (assigning the global id counter before the shape loop runs), load
its shapes, and register it; a shape failure aborts the load with the
partially filled Space (`resetMassData` is not modelled — `BodyT` carries
no mass data). -/
def loadBodies : List BodyCfg → SpaceT → Option ShapeT →
    SpaceT × Option ShapeT × Option JsErr
  | [], s, prev => (s, prev, none)
  | cfg :: rest, s, prev =>
    let bid := s.bodyIdCounter
    let s2 := { s with bodyIdCounter := s.bodyIdCounter + 1 }
    match loadShapesLoop cfg.shapes prev [] with
    | none => (s2, prev, some JsErr.typeError)
    | some r =>
      let body : BodyT :=
        { id := bid,
          btype := if cfg.btype = "static" then BodyType.staticBody
                   else BodyType.dynamicBody,
          pos := cfg.position, angle := cfg.angle, shapes := r.1,
          jointList := [], awakeFlag := true }
      loadBodies rest (addBody s2 body) r.2

/-- Whether the joint `switch` of `Space.create` (source lines 283–312)
has a case for this kind tag (note: `"RopeJoint"` is not among them,
though `RopeJoint.serialize` emits it). -/
def knownJointKind (t : String) : Prop :=
  t = "AngleJoint" ∨ t = "RevoluteJoint" ∨ t = "WeldJoint"
  ∨ t = "DistanceJoint" ∨ t = "LineJoint" ∨ t = "PrismaticJoint"

instance (t : String) : Decidable (knownJointKind t) := by
  unfold knownJointKind
  infer_instance

/-- Modelled from the spec: the payload each joint constructor records
from its config (the non-rope joint classes are not among the sources;
world→local anchor conversion is irrelevant to the claims below, so the
payload stores the constructor/config arguments). -/
def jointKindOf (cfg : JointCfg) : JointKind :=
  if cfg.jtype = "AngleJoint" then JointKind.angle
  else if cfg.jtype = "RevoluteJoint" then
    JointKind.revolute cfg.anchor cfg.limitEnabled cfg.limitLowerAngle
      cfg.limitUpperAngle cfg.motorEnabled cfg.motorSpeed cfg.maxMotorTorque
  else if cfg.jtype = "WeldJoint" then JointKind.weld cfg.anchor
  else if cfg.jtype = "DistanceJoint" then
    JointKind.distance cfg.anchor1 cfg.anchor2 cfg.frequencyHz cfg.ratioDamping
  else if cfg.jtype = "LineJoint" then
    JointKind.line cfg.anchor1 cfg.anchor2 cfg.motorEnabled cfg.motorSpeed
      cfg.maxMotorTorque
  else JointKind.prismatic cfg.anchor1 cfg.anchor2

/-- The joint loop of `Space.create` (source lines 277–319), threading
the function-scoped `var joint` as `prev`.  A known kind with a missing
body throws (modelled from the spec: every joint constructor dereferences
its two bodies); an unknown kind with no previous joint throws at
`joint.collideConnected = ...`; an unknown kind after a successful
construction reassigns the previous joint object's common fields and
re-adds it, which the `addJoint` guard turns into a no-op. -/
def loadJoints : List JointCfg → SpaceT → Option JointT → SpaceT × Option JsErr
  | [], s, _ => (s, none)
  | cfg :: rest, s, prev =>
    if knownJointKind cfg.jtype then
      if (lookupBody s cfg.body1).isSome && (lookupBody s cfg.body2).isSome then
        let j : JointT :=
          { id := s.jointIdCounter, body1Id := cfg.body1, body2Id := cfg.body2,
            kind := jointKindOf cfg,
            collideConnected := cfg.collideConnected,
            maxForce := cfg.maxForce, breakable := cfg.breakable }
        let s2 := { s with jointIdCounter := s.jointIdCounter + 1 }
        loadJoints rest (addJoint s2 j) (some j)
      else (s, some JsErr.typeError)
    else
      match prev with
      | none => (s, some JsErr.typeError)
      | some pj =>
        let j : JointT :=
          { pj with collideConnected := cfg.collideConnected,
                    maxForce := cfg.maxForce, breakable := cfg.breakable }
        loadJoints rest (addJoint s j) (some j)

/-- Embedding of `Space.prototype.create(text)` (source lines 240–320)
over the parsed config: clear the world, load bodies, then joints; a
thrown `TypeError` aborts the load, leaving the mutations made so far in
place. -/
def create (cfg : Config) (s : SpaceT) : SpaceT × Option JsErr :=
  let s0 := clear s
  let r1 := loadBodies cfg.bodies s0 none
  match r1.2.2 with
  | some err => (r1.1, some err)
  | none => loadJoints cfg.joints r1.1 none

/-- Modelled from the spec: `Body.getWorldPoint(p)` — the body transform
applied to a local point. -/
noncomputable def getWorldPoint (b : BodyT) (p : Vec2) : Vec2 :=
  Vec2.add b.pos (Vec2.rotate p b.angle)

/-- Default body used when a serialized joint's body id is unregistered
(unreachable in well-formed worlds). -/
def bodyFallback : BodyT :=
  { id := 0, btype := BodyType.staticBody, pos := ⟨0, 0⟩, angle := 0,
    shapes := [], jointList := [], awakeFlag := false }

/-- Default joint config record (a zero/false field stands for a JSON
field the kind does not emit). -/
def jointCfgBlank : JointCfg :=
  { jtype := "", body1 := 0, body2 := 0, anchor := ⟨0, 0⟩, anchor1 := ⟨0, 0⟩,
    anchor2 := ⟨0, 0⟩, limitEnabled := false, limitLowerAngle := 0,
    limitUpperAngle := 0, motorEnabled := false, motorSpeed := 0,
    maxMotorTorque := 0, frequencyHz := 0, ratioDamping := 0,
    collideConnected := false, maxForce := 0, breakable := false }

/-- Modelled from the spec: serialization of one shape (geometry plus
material, tagged with its kind). -/
def serializeShape (sh : ShapeT) : ShapeCfg :=
  match sh.geom with
  | ShapeGeom.circle c r =>
    { stype := "ShapeCircle", center := c, radius := r, a := ⟨0, 0⟩,
      b := ⟨0, 0⟩, verts := [], e := sh.e, u := sh.u, density := sh.density }
  | ShapeGeom.segment a b r =>
    { stype := "ShapeSegment", center := ⟨0, 0⟩, radius := r, a := a, b := b,
      verts := [], e := sh.e, u := sh.u, density := sh.density }
  | ShapeGeom.poly vs =>
    { stype := "ShapePoly", center := ⟨0, 0⟩, radius := 0, a := ⟨0, 0⟩,
      b := ⟨0, 0⟩, verts := vs, e := sh.e, u := sh.u, density := sh.density }

/-- Modelled from the spec: `Body.serialize()` —
`{type, position, angle, shapes}`. -/
def serializeBody (b : BodyT) : BodyCfg :=
  { btype := if b.btype = BodyType.staticBody then "static" else "dynamic",
    position := b.pos, angle := b.angle,
    shapes := b.shapes.map serializeShape }

/-- Serialization of one joint.  The RopeJoint case is the embedding of
`RopeJoint.prototype.serialize()` (source lines 44–55): type tag
`"RopeJoint"`, the two body ids, the world anchors, `collideConnected`,
`maxForce`, `breakable` — and no `maxDistance`.  The other kinds are
modelled from the spec (their serializers are not among the sources). -/
noncomputable def serializeJoint (s : SpaceT) (j : JointT) : JointCfg :=
  let base := { jointCfgBlank with
                body1 := j.body1Id, body2 := j.body2Id,
                collideConnected := j.collideConnected, maxForce := j.maxForce,
                breakable := j.breakable }
  match j.kind with
  | JointKind.rope a1 a2 _ =>
    { base with
      jtype := "RopeJoint",
      anchor1 := getWorldPoint ((lookupBody s j.body1Id).getD bodyFallback) a1,
      anchor2 := getWorldPoint ((lookupBody s j.body2Id).getD bodyFallback) a2 }
  | JointKind.angle => { base with jtype := "AngleJoint" }
  | JointKind.revolute anchor le ll lu me msp mt =>
    { base with
      jtype := "RevoluteJoint", anchor := anchor, limitEnabled := le,
      limitLowerAngle := ll, limitUpperAngle := lu, motorEnabled := me,
      motorSpeed := msp, maxMotorTorque := mt }
  | JointKind.weld anchor => { base with jtype := "WeldJoint", anchor := anchor }
  | JointKind.distance a1 a2 fh dr =>
    { base with
      jtype := "DistanceJoint", anchor1 := a1, anchor2 := a2,
      frequencyHz := fh, ratioDamping := dr }
  | JointKind.line a1 a2 me msp mt =>
    { base with
      jtype := "LineJoint", anchor1 := a1, anchor2 := a2,
      motorEnabled := me, motorSpeed := msp, maxMotorTorque := mt }
  | JointKind.prismatic a1 a2 =>
    { base with
      jtype := "PrismaticJoint", anchor1 := a1, anchor2 := a2 }

/-- Embedding of `Space.prototype.toJSON()` (source lines 223–238):
serialize every registered body and joint. -/
noncomputable def toJSON (s : SpaceT) : Config :=
  { bodies := s.bodyHash.map serializeBody,
    joints := s.jointHash.map (serializeJoint s) }

/-- Registry well-formedness: the `numBodies`/`numJoints` counters equal
the number of registered bodies/joints, and ids are unique. -/
def WF (s : SpaceT) : Prop :=
  s.numBodies = s.bodyHash.length ∧ s.numJoints = s.jointHash.length
  ∧ (s.bodyHash.map BodyT.id).Nodup ∧ (s.jointHash.map JointT.id).Nodup

/-- Invariant tying the global id counter to the registered bodies: every
registered id is below the counter (holds for every world `create`
builds). -/
def IdFresh (s : SpaceT) : Prop :=
  ∀ b ∈ s.bodyHash, b.id < s.bodyIdCounter

end Scene

/-- Witness body for the registry claims: id 0, no shapes, no joints. -/
noncomputable def regBody : Scene.BodyT :=
  { id := 0, btype := Scene.BodyType.dynamicBody, pos := ⟨0, 0⟩, angle := 0,
    shapes := [], jointList := [], awakeFlag := true }

/-- Witness joint for the registry claims: id 5, connecting body 0 to
itself, not registered in `regSpace`. -/
noncomputable def regJoint : Scene.JointT :=
  { id := 5, body1Id := 0, body2Id := 0, kind := Scene.JointKind.angle,
    collideConnected := false, maxForce := 0, breakable := false }

/-- Witness space for the registry claims: one registered body, no
joints, consistent counters. -/
noncomputable def regSpace : Scene.SpaceT :=
  { bodyHash := [regBody], numBodies := 1, jointHash := [], numJoints := 0,
    stepCount := 0, bodyIdCounter := 1, jointIdCounter := 0 }

/-- A well-formed scene body config with no shapes, used by the C7
counterexample: loading it succeeds. -/
noncomputable def plainBodyCfg : Scene.BodyCfg :=
  { btype := "static", position := ⟨0, 0⟩, angle := 0, shapes := [] }

/-- A joint config with a kind tag `Space.create` has no case for, used
by the C7 counterexample. -/
noncomputable def fooJointCfg : Scene.JointCfg :=
  { Scene.jointCfgBlank with jtype := "FooJoint" }

/-- The rope joint of the C8 failing world (id 0, bodies 0 and 1, local
anchors at the two body origins, rope length 2). -/
noncomputable def ropeJT : Scene.JointT :=
  { id := 0, body1Id := 0, body2Id := 1,
    kind := Scene.JointKind.rope ⟨0, 0⟩ ⟨0, 0⟩ 2,
    collideConnected := false, maxForce := 0, breakable := false }

/-- Static anchor body of the C8 failing world. -/
noncomputable def ropeBody0 : Scene.BodyT :=
  { id := 0, btype := Scene.BodyType.staticBody, pos := ⟨0, 0⟩, angle := 0,
    shapes := [], jointList := [ropeJT], awakeFlag := true }

/-- Dynamic swinging body of the C8 failing world. -/
noncomputable def ropeBody1 : Scene.BodyT :=
  { id := 1, btype := Scene.BodyType.dynamicBody, pos := ⟨2, 0⟩, angle := 0,
    shapes := [], jointList := [ropeJT], awakeFlag := true }

/-- The C8 failing world: two bodies connected by a RopeJoint. -/
noncomputable def ropeWorld : Scene.SpaceT :=
  { bodyHash := [ropeBody0, ropeBody1], numBodies := 2,
    jointHash := [ropeJT], numJoints := 1, stepCount := 0,
    bodyIdCounter := 2, jointIdCounter := 1 }

-- General helper: reading a mapped list at an in-range index.

lemma getD_map_of_lt {α β : Type} (f : α → β) (l : List α) (i : ℕ)
    (h : i < l.length) (d : β) (d2 : α) :
    (l.map f).getD i d = f (l.getD i d2) := by
  rw [List.getD_eq_getElem _ _ (by simpa using h), List.getD_eq_getElem _ _ h,
      List.getElem_map]

-- Helper lemmas: the joint returned by initSolver is the same in both
-- warm-starting branches; its cached fields are the named intermediate
-- quantities.

lemma rope_initSolver_fst_distance (dt : ℝ) (ws : Bool) (j : Rope.Joint)
    (b1 b2 : Rope.SBody) :
    (Rope.initSolver dt ws j b1 b2).1.distance = Rope.anchorDist j b1 b2 := by
  cases ws <;> rfl

lemma rope_initSolver_fst_cdt (dt : ℝ) (ws : Bool) (j : Rope.Joint)
    (b1 b2 : Rope.SBody) :
    (Rope.initSolver dt ws j b1 b2).1.cdt
      = if Rope.anchorDist j b1 b2 - j.maxDistance > 0 then (0 : ℝ)
        else (Rope.anchorDist j b1 b2 - j.maxDistance) / dt := by
  cases ws <;> rfl

lemma rope_initSolver_fst_limitState (dt : ℝ) (ws : Bool) (j : Rope.Joint)
    (b1 b2 : Rope.SBody) :
    (Rope.initSolver dt ws j b1 b2).1.limitState
      = if Rope.anchorDist j b1 b2 - j.maxDistance > 0 then LimitState.atUpper
        else LimitState.inactive := by
  cases ws <;> rfl

lemma rope_initSolver_fst_u (dt : ℝ) (ws : Bool) (j : Rope.Joint)
    (b1 b2 : Rope.SBody) :
    (Rope.initSolver dt ws j b1 b2).1.u = Rope.initU j b1 b2 := by
  cases ws <;> rfl

lemma rope_anchorDist_jointW_bodyW : Rope.anchorDist jointW bodyW bodyW = 0 := by
  simp [Rope.anchorDist, Rope.anchorDelta, Rope.anchorR1, Rope.anchorR2,
        Vec2.length, Vec2.sub, Vec2.add, Vec2.rotate, jointW, bodyW]

/-- C2: every call to `RopeJoint.solveVelocityConstraints` computes the
unclamped impulse `Δλ = -em·(Cdot + cdt)` with
`Cdot = u·(v2 - v1) + s2·w2 - s1·w1`, clamps the accumulator to
`min(λ_acc + Δλ, 0)`, applies exactly the clamped delta to the two bodies'
linear and angular velocities along `u`, and the accumulated impulse is
never positive afterwards. -/
theorem rope_solveVelocity_clamped_accumulation (j : Rope.Joint)
    (b1 b2 : Rope.SBody) :
    (Rope.solveVelocityConstraints j b1 b2).1.lambda_acc
        = min (j.lambda_acc
            + (-j.em * ((j.u.dot (Vec2.sub b2.v b1.v) + j.s2 * b2.w - j.s1 * b1.w)
                + j.cdt))) 0
  ∧ (Rope.solveVelocityConstraints j b1 b2).2.1.v
        = Vec2.mad b1.v
            (Vec2.scale j.u
              ((Rope.solveVelocityConstraints j b1 b2).1.lambda_acc - j.lambda_acc))
            (-b1.m_inv)
  ∧ (Rope.solveVelocityConstraints j b1 b2).2.1.w
        = b1.w - j.s1
            * ((Rope.solveVelocityConstraints j b1 b2).1.lambda_acc - j.lambda_acc)
            * b1.i_inv
  ∧ (Rope.solveVelocityConstraints j b1 b2).2.2.v
        = Vec2.mad b2.v
            (Vec2.scale j.u
              ((Rope.solveVelocityConstraints j b1 b2).1.lambda_acc - j.lambda_acc))
            b2.m_inv
  ∧ (Rope.solveVelocityConstraints j b1 b2).2.2.w
        = b2.w + j.s2
            * ((Rope.solveVelocityConstraints j b1 b2).1.lambda_acc - j.lambda_acc)
            * b2.i_inv
  ∧ (Rope.solveVelocityConstraints j b1 b2).1.lambda_acc ≤ 0 :=
  ⟨rfl, rfl, rfl, rfl, rfl, min_le_right _ _⟩

/-- C3: after every call to `RopeJoint.initSolver` with time step `dt`,
writing `C = distance - maxDistance` for the cached world-anchor distance
and the rope length: `C > 0` gives limit state `atUpper` with bias
`cdt = 0`; `C ≤ 0` gives limit state `inactive` with `cdt = C/dt`; and
whenever the anchor distance is below `LINEAR_SLOP` the cached unit
direction `u` is the zero vector. -/
theorem rope_initSolver_limit_state (dt : ℝ) (warmStarting : Bool)
    (j : Rope.Joint) (b1 b2 : Rope.SBody) :
    ((Rope.initSolver dt warmStarting j b1 b2).1.distance - j.maxDistance > 0 →
      (Rope.initSolver dt warmStarting j b1 b2).1.limitState = LimitState.atUpper
      ∧ (Rope.initSolver dt warmStarting j b1 b2).1.cdt = 0)
  ∧ ((Rope.initSolver dt warmStarting j b1 b2).1.distance - j.maxDistance ≤ 0 →
      (Rope.initSolver dt warmStarting j b1 b2).1.limitState = LimitState.inactive
      ∧ (Rope.initSolver dt warmStarting j b1 b2).1.cdt
          = ((Rope.initSolver dt warmStarting j b1 b2).1.distance - j.maxDistance) / dt)
  ∧ ((Rope.initSolver dt warmStarting j b1 b2).1.distance < LINEAR_SLOP →
      (Rope.initSolver dt warmStarting j b1 b2).1.u = Vec2.zero) := by
  rw [rope_initSolver_fst_distance, rope_initSolver_fst_cdt,
      rope_initSolver_fst_limitState, rope_initSolver_fst_u]
  refine ⟨fun h => ⟨if_pos h, if_pos h⟩,
          fun h => ⟨if_neg (not_lt.mpr h), if_neg (not_lt.mpr h)⟩,
          fun h => ?_⟩
  simp only [Rope.initU]
  exact if_neg (not_lt.mpr h.le)

/-- C3 witness: at the concrete slack configuration (`jointW`, `bodyW`)
with `dt = 1` the distance is 0, so `C = -1 ≤ 0`: the limit state is
`inactive`, the bias is `C/dt`, and the unit direction is zero. -/
theorem rope_initSolver_limit_state_witness :
    ((Rope.initSolver 1 false jointW bodyW bodyW).1.distance - jointW.maxDistance ≤ 0)
  ∧ ((Rope.initSolver 1 false jointW bodyW bodyW).1.distance < LINEAR_SLOP)
  ∧ ((Rope.initSolver 1 false jointW bodyW bodyW).1.limitState = LimitState.inactive
      ∧ (Rope.initSolver 1 false jointW bodyW bodyW).1.cdt
          = ((Rope.initSolver 1 false jointW bodyW bodyW).1.distance
              - jointW.maxDistance) / 1)
  ∧ (Rope.initSolver 1 false jointW bodyW bodyW).1.u = Vec2.zero := by
  have hd : (Rope.initSolver 1 false jointW bodyW bodyW).1.distance = 0 := by
    rw [rope_initSolver_fst_distance]
    exact rope_anchorDist_jointW_bodyW
  have h1 : (Rope.initSolver 1 false jointW bodyW bodyW).1.distance
      - jointW.maxDistance ≤ 0 := by
    rw [hd]; norm_num [jointW]
  have h2 : (Rope.initSolver 1 false jointW bodyW bodyW).1.distance < LINEAR_SLOP := by
    rw [hd]; norm_num [LINEAR_SLOP]
  have hmain := rope_initSolver_limit_state 1 false jointW bodyW bodyW
  exact ⟨h1, h2, hmain.2.1 h1, hmain.2.2 h2⟩

-- Helper lemmas for the broad phase.

section BroadLemmas

variable {σ β γ : Type} [DecidableEq σ] (P : Broad.BParams σ β γ)
variable (prev : List (Broad.CSolver σ γ))

lemma wakeBody_stepCount (f : ℕ → Broad.BBody σ β) (k x : ℕ) :
    ((Broad.wakeBody f k) x).stepCount = (f x).stepCount := by
  unfold Broad.wakeBody
  rw [Function.update_apply]
  split_ifs with h
  · subst h; rfl
  · rfl

lemma innerLoop_stepCount (k : ℕ) (ms : List ℕ) :
    ∀ (f : ℕ → Broad.BBody σ β) (x : ℕ),
      ((Broad.innerLoop P prev k ms f).1 x).stepCount = (f x).stepCount := by
  induction ms with
  | nil => intro f x; rfl
  | cons m ms ih =>
    intro f x
    simp only [Broad.innerLoop]
    split_ifs with h1 h2 h3 h4 h5
    · exact ih f x
    · exact ih f x
    · exact ih f x
    · exact ih f x
    · exact (ih (Broad.wakeBody (Broad.wakeBody f k) m) x).trans
        (by rw [wakeBody_stepCount, wakeBody_stepCount])
    · exact ih f x

lemma innerLoop_entries (k : ℕ) (ms : List ℕ) :
    ∀ (f : ℕ → Broad.BBody σ β),
      ∀ e ∈ (Broad.innerLoop P prev k ms f).2,
        e.i = k ∧ e.j ∈ ms ∧ e.i ≠ e.j
        ∧ (((e.b1.awakeFlag && !e.b1.staticFlag) = false
            ∧ (e.b2.awakeFlag && !e.b2.staticFlag) = false) → e.solvers = [])
        ∧ (P.collidable e.b1 e.b2 = false → e.solvers = [])
        ∧ (P.intersects e.b1.bounds e.b2.bounds = false → e.solvers = []) := by
  induction ms with
  | nil => intro f e he; cases he
  | cons m ms ih =>
    intro f e he
    simp only [Broad.innerLoop] at he
    split_ifs at he with h1 h2 h3 h4 h5
    · rcases ih f e he with ⟨ha, hb, hc⟩
      exact ⟨ha, List.mem_cons_of_mem m hb, hc⟩
    · rcases List.mem_cons.mp he with rfl | he2
      · refine ⟨rfl, List.mem_cons_self m ms,
          fun hc => h1 (by rw [show k = m from hc]), ?_, ?_, ?_⟩
        all_goals exact fun _ => rfl
      · rcases ih _ e he2 with ⟨ha, hb, hc⟩
        exact ⟨ha, List.mem_cons_of_mem m hb, hc⟩
    · rcases List.mem_cons.mp he with rfl | he2
      · refine ⟨rfl, List.mem_cons_self m ms,
          fun hc => h1 (by rw [show k = m from hc]), ?_, ?_, ?_⟩
        all_goals exact fun _ => rfl
      · rcases ih _ e he2 with ⟨ha, hb, hc⟩
        exact ⟨ha, List.mem_cons_of_mem m hb, hc⟩
    · rcases List.mem_cons.mp he with rfl | he2
      · refine ⟨rfl, List.mem_cons_self m ms,
          fun hc => h1 (by rw [show k = m from hc]), ?_, ?_, ?_⟩
        all_goals exact fun _ => rfl
      · rcases ih _ e he2 with ⟨ha, hb, hc⟩
        exact ⟨ha, List.mem_cons_of_mem m hb, hc⟩
    · rcases List.mem_cons.mp he with rfl | he2
      · refine ⟨rfl, List.mem_cons_self m ms,
          fun hc => h1 (by rw [show k = m from hc]),
          fun hcond => ?_,
          fun hcond => absurd (show P.collidable (f k) (f m) = false from hcond) h3,
          fun hcond => absurd (show P.intersects (f k).bounds (f m).bounds = false
            from hcond) h4⟩
        have hc1 : ((f k).awakeFlag && !(f k).staticFlag) = false := hcond.1
        have hc2 : ((f m).awakeFlag && !(f m).staticFlag) = false := hcond.2
        exact absurd (by rw [hc1, hc2]; rfl) h2
      · rcases ih _ e he2 with ⟨ha, hb, hc⟩
        exact ⟨ha, List.mem_cons_of_mem m hb, hc⟩
    · rcases List.mem_cons.mp he with rfl | he2
      · refine ⟨rfl, List.mem_cons_self m ms,
          fun hc => h1 (by rw [show k = m from hc]),
          fun hcond => ?_,
          fun hcond => absurd (show P.collidable (f k) (f m) = false from hcond) h3,
          fun hcond => absurd (show P.intersects (f k).bounds (f m).bounds = false
            from hcond) h4⟩
        have hc1 : ((f k).awakeFlag && !(f k).staticFlag) = false := hcond.1
        have hc2 : ((f m).awakeFlag && !(f m).staticFlag) = false := hcond.2
        exact absurd (by rw [hc1, hc2]; rfl) h2
      · rcases ih _ e he2 with ⟨ha, hb, hc⟩
        exact ⟨ha, List.mem_cons_of_mem m hb, hc⟩

lemma innerLoop_count_j (S : Int) (k m : ℕ) (ms : List ℕ) :
    ∀ (f : ℕ → Broad.BBody σ β), ms.Nodup → (f k).stepCount = S →
      ((Broad.innerLoop P prev k ms f).2.countP (fun e => decide (e.j = m)) ≤ 1
       ∧ ((f m).stepCount = S →
           (Broad.innerLoop P prev k ms f).2.countP (fun e => decide (e.j = m)) = 0)) := by
  induction ms with
  | nil => intro f _ _; exact ⟨Nat.zero_le 1, fun _ => rfl⟩
  | cons m2 ms ih =>
    intro f hnd hk
    have hnd2 : ms.Nodup := hnd.of_cons
    have hm2 : m2 ∉ ms := (List.nodup_cons.mp hnd).1
    have hzero : ∀ f3 : ℕ → Broad.BBody σ β, m2 = m →
        (Broad.innerLoop P prev k ms f3).2.countP
          (fun e => decide (e.j = m)) = 0 := by
      intro f3 hmm
      rw [List.countP_eq_zero]
      intro e he
      rcases innerLoop_entries P prev k ms f3 e he with ⟨_, hb, _⟩
      simp only [decide_eq_true_eq]
      intro hc
      rw [hc, ← hmm] at hb
      exact hm2 hb
    have hwake : ∀ x, ((Broad.wakeBody (Broad.wakeBody f k) m2) x).stepCount
        = (f x).stepCount := by
      intro x
      rw [wakeBody_stepCount, wakeBody_stepCount]
    simp only [Broad.innerLoop]
    split_ifs with h1 h2 h3 h4 h5
    · exact ih f hnd2 hk
    · rw [List.countP_cons]
      by_cases hmm : m2 = m
      · subst hmm
        rw [hzero f rfl]
        refine ⟨by simp, fun hms => ?_⟩
        exact absurd (hk.trans hms.symm) h1
      · have hr := ih f hnd2 hk
        exact ⟨by simpa [hmm] using hr.1, fun hms => by simpa [hmm] using hr.2 hms⟩
    · rw [List.countP_cons]
      by_cases hmm : m2 = m
      · subst hmm
        rw [hzero f rfl]
        refine ⟨by simp, fun hms => ?_⟩
        exact absurd (hk.trans hms.symm) h1
      · have hr := ih f hnd2 hk
        exact ⟨by simpa [hmm] using hr.1, fun hms => by simpa [hmm] using hr.2 hms⟩
    · rw [List.countP_cons]
      by_cases hmm : m2 = m
      · subst hmm
        rw [hzero f rfl]
        refine ⟨by simp, fun hms => ?_⟩
        exact absurd (hk.trans hms.symm) h1
      · have hr := ih f hnd2 hk
        exact ⟨by simpa [hmm] using hr.1, fun hms => by simpa [hmm] using hr.2 hms⟩
    · rw [List.countP_cons]
      by_cases hmm : m2 = m
      · subst hmm
        rw [hzero _ rfl]
        refine ⟨by simp, fun hms => ?_⟩
        exact absurd (hk.trans hms.symm) h1
      · have hr := ih (Broad.wakeBody (Broad.wakeBody f k) m2) hnd2
          (by rw [hwake k]; exact hk)
        refine ⟨by simpa [hmm] using hr.1, fun hms => ?_⟩
        simpa [hmm] using hr.2 (by rw [hwake m]; exact hms)
    · rw [List.countP_cons]
      by_cases hmm : m2 = m
      · subst hmm
        rw [hzero f rfl]
        refine ⟨by simp, fun hms => ?_⟩
        exact absurd (hk.trans hms.symm) h1
      · have hr := ih f hnd2 hk
        exact ⟨by simpa [hmm] using hr.1, fun hms => by simpa [hmm] using hr.2 hms⟩

lemma outerLoop_stepCount (S : Int) (all : List ℕ) (ks : List ℕ) :
    ∀ (f : ℕ → Broad.BBody σ β) (x : ℕ),
      ((Broad.outerLoop P prev S all ks f).1 x).stepCount
        = if x ∈ ks then S else (f x).stepCount := by
  induction ks with
  | nil => intro f x; simp [Broad.outerLoop]
  | cons k ks ih =>
    intro f x
    show ((Broad.outerLoop P prev S all ks
        ((Broad.innerLoop P prev k all
          (Function.update f k { f k with stepCount := S })).1)).1 x).stepCount
      = if x ∈ k :: ks then S else (f x).stepCount
    rw [ih _ x, innerLoop_stepCount]
    by_cases hxk : x = k
    · subst hxk
      rw [Function.update_same]
      simp
    · rw [Function.update_noteq hxk]
      simp [List.mem_cons, hxk]

lemma outerLoop_entries (S : Int) (all : List ℕ) (ks : List ℕ) :
    ∀ (f : ℕ → Broad.BBody σ β),
      ∀ e ∈ (Broad.outerLoop P prev S all ks f).2,
        e.i ∈ ks ∧ e.j ∈ all ∧ e.i ≠ e.j
        ∧ (((e.b1.awakeFlag && !e.b1.staticFlag) = false
            ∧ (e.b2.awakeFlag && !e.b2.staticFlag) = false) → e.solvers = [])
        ∧ (P.collidable e.b1 e.b2 = false → e.solvers = [])
        ∧ (P.intersects e.b1.bounds e.b2.bounds = false → e.solvers = []) := by
  induction ks with
  | nil => intro f e he; cases he
  | cons k ks ih =>
    intro f e he
    have he2 : e ∈ (Broad.innerLoop P prev k all
          (Function.update f k { f k with stepCount := S })).2
        ++ (Broad.outerLoop P prev S all ks
            ((Broad.innerLoop P prev k all
              (Function.update f k { f k with stepCount := S })).1)).2 := he
    rcases List.mem_append.mp he2 with hin | hout
    · rcases innerLoop_entries P prev k all _ e hin with ⟨ha, hb, hc⟩
      exact ⟨ha ▸ List.mem_cons_self k ks, hb, hc⟩
    · rcases ih _ e hout with ⟨ha, hb, hc⟩
      exact ⟨List.mem_cons_of_mem k ha, hb, hc⟩

lemma outerLoop_count_j_zero (S : Int) (all : List ℕ) (hall : all.Nodup)
    (a : ℕ) (ks : List ℕ) :
    ∀ (f : ℕ → Broad.BBody σ β), (f a).stepCount = S →
      (Broad.outerLoop P prev S all ks f).2.countP
        (fun e => decide (e.j = a)) = 0 := by
  induction ks with
  | nil => intro f _; rfl
  | cons k ks ih =>
    intro f hfa
    show ((Broad.innerLoop P prev k all
          (Function.update f k { f k with stepCount := S })).2
        ++ (Broad.outerLoop P prev S all ks
            ((Broad.innerLoop P prev k all
              (Function.update f k { f k with stepCount := S })).1)).2).countP
        (fun e => decide (e.j = a)) = 0
    rw [List.countP_append]
    have hf1k : ((Function.update f k { f k with stepCount := S }) k).stepCount
        = S := by rw [Function.update_same]
    have hf1a : ((Function.update f k { f k with stepCount := S }) a).stepCount
        = S := by
      by_cases hak : a = k
      · subst hak; rw [Function.update_same]
      · rw [Function.update_noteq hak]; exact hfa
    rw [(innerLoop_count_j P prev S k a all _ hall hf1k).2 hf1a]
    rw [ih _ (by rw [innerLoop_stepCount]; exact hf1a)]

lemma outerLoop_pair_count (S : Int) (all : List ℕ) (hall : all.Nodup)
    (a b : ℕ) (hab : a ≠ b) (ks : List ℕ) :
    ∀ (f : ℕ → Broad.BBody σ β), ks.Nodup →
      (Broad.outerLoop P prev S all ks f).2.countP
        (fun e => decide ((e.i = a ∧ e.j = b) ∨ (e.i = b ∧ e.j = a))) ≤ 1 := by
  induction ks with
  | nil => intro f _; exact Nat.zero_le 1
  | cons k ks ih =>
    intro f hnd
    have hk_not : k ∉ ks := (List.nodup_cons.mp hnd).1
    have hnd2 : ks.Nodup := hnd.of_cons
    have hf1k : ((Function.update f k { f k with stepCount := S }) k).stepCount
        = S := by rw [Function.update_same]
    have hrk : (((Broad.innerLoop P prev k all
        (Function.update f k { f k with stepCount := S })).1) k).stepCount = S := by
      rw [innerLoop_stepCount]; exact hf1k
    show ((Broad.innerLoop P prev k all
          (Function.update f k { f k with stepCount := S })).2
        ++ (Broad.outerLoop P prev S all ks
            ((Broad.innerLoop P prev k all
              (Function.update f k { f k with stepCount := S })).1)).2).countP
        (fun e => decide ((e.i = a ∧ e.j = b) ∨ (e.i = b ∧ e.j = a))) ≤ 1
    rw [List.countP_append]
    by_cases hka : k = a
    · subst hka
      have hIn : (Broad.innerLoop P prev k all
          (Function.update f k { f k with stepCount := S })).2.countP
            (fun e => decide (e.j = b)) ≤ 1 :=
        (innerLoop_count_j P prev S k b all _ hall hf1k).1
      have hmono : (Broad.innerLoop P prev k all
          (Function.update f k { f k with stepCount := S })).2.countP
            (fun e => decide ((e.i = k ∧ e.j = b) ∨ (e.i = b ∧ e.j = k)))
          ≤ (Broad.innerLoop P prev k all
          (Function.update f k { f k with stepCount := S })).2.countP
            (fun e => decide (e.j = b)) := by
        apply List.countP_mono_left
        intro e he hp
        have hi := (innerLoop_entries P prev k all _ e he).1
        simp only [decide_eq_true_eq] at hp ⊢
        rcases hp with ⟨_, hj⟩ | ⟨hib, _⟩
        · exact hj
        · rw [hi] at hib; exact absurd hib hab
      have hOut : (Broad.outerLoop P prev S all ks
          ((Broad.innerLoop P prev k all
            (Function.update f k { f k with stepCount := S })).1)).2.countP
          (fun e => decide ((e.i = k ∧ e.j = b) ∨ (e.i = b ∧ e.j = k))) = 0 := by
        rw [List.countP_eq_zero]
        intro e he
        simp only [decide_eq_true_eq]
        intro hp
        have hie := (outerLoop_entries P prev S all ks _ e he).1
        rcases hp with ⟨hia, _⟩ | ⟨_, hja⟩
        · rw [hia] at hie; exact hk_not hie
        · have hz := outerLoop_count_j_zero P prev S all hall k ks _ hrk
          have hze := List.countP_eq_zero.mp hz e he
          simp only [decide_eq_true_eq] at hze
          exact hze hja
      rw [hOut]
      omega
    · by_cases hkb : k = b
      · subst hkb
        have hIn : (Broad.innerLoop P prev k all
            (Function.update f k { f k with stepCount := S })).2.countP
              (fun e => decide (e.j = a)) ≤ 1 :=
          (innerLoop_count_j P prev S k a all _ hall hf1k).1
        have hmono : (Broad.innerLoop P prev k all
            (Function.update f k { f k with stepCount := S })).2.countP
              (fun e => decide ((e.i = a ∧ e.j = k) ∨ (e.i = k ∧ e.j = a)))
            ≤ (Broad.innerLoop P prev k all
            (Function.update f k { f k with stepCount := S })).2.countP
              (fun e => decide (e.j = a)) := by
          apply List.countP_mono_left
          intro e he hp
          have hi := (innerLoop_entries P prev k all _ e he).1
          simp only [decide_eq_true_eq] at hp ⊢
          rcases hp with ⟨hia, _⟩ | ⟨_, hj⟩
          · rw [hi] at hia; exact absurd hia hka
          · exact hj
        have hOut : (Broad.outerLoop P prev S all ks
            ((Broad.innerLoop P prev k all
              (Function.update f k { f k with stepCount := S })).1)).2.countP
            (fun e => decide ((e.i = a ∧ e.j = k) ∨ (e.i = k ∧ e.j = a))) = 0 := by
          rw [List.countP_eq_zero]
          intro e he
          simp only [decide_eq_true_eq]
          intro hp
          have hie := (outerLoop_entries P prev S all ks _ e he).1
          rcases hp with ⟨_, hjk⟩ | ⟨hik, _⟩
          · have hz := outerLoop_count_j_zero P prev S all hall k ks _ hrk
            have hze := List.countP_eq_zero.mp hz e he
            simp only [decide_eq_true_eq] at hze
            exact hze hjk
          · rw [hik] at hie; exact hk_not hie
        rw [hOut]
        omega
      · have hIn : (Broad.innerLoop P prev k all
            (Function.update f k { f k with stepCount := S })).2.countP
              (fun e => decide ((e.i = a ∧ e.j = b) ∨ (e.i = b ∧ e.j = a))) = 0 := by
          rw [List.countP_eq_zero]
          intro e he
          simp only [decide_eq_true_eq]
          intro hp
          have hi := (innerLoop_entries P prev k all _ e he).1
          rcases hp with ⟨hia, _⟩ | ⟨hib, _⟩
          · rw [hi] at hia; exact hka hia
          · rw [hi] at hib; exact hkb hib
        rw [hIn]
        have := ih ((Broad.innerLoop P prev k all
          (Function.update f k { f k with stepCount := S })).1) hnd2
        omega

end BroadLemmas

/-- C1: in one broad-phase pass (`Space.genTemporalContactSolvers`) over
`n` bodies at step counter `S`, every unordered pair of distinct body
indices is examined at most once (the stepCount watermark suppresses one
orientation), no examined pair is a self-pair, a pair examined while
both snapshots are asleep-or-static, or not collidable, or with
non-intersecting AABBs contributes no contact solver, and the returned
`newContactSolverArr` is exactly the concatenation of the per-pair
contributions. -/
theorem space_broadPhase_contract {σ β γ : Type} [DecidableEq σ]
    (P : Broad.BParams σ β γ) (prev : List (Broad.CSolver σ γ)) (S : Int)
    (n : ℕ) (f : ℕ → Broad.BBody σ β) :
    (∀ a b : ℕ, a ≠ b →
      (Broad.genTrace P prev S n f).2.countP
        (fun e => decide ((e.i = a ∧ e.j = b) ∨ (e.i = b ∧ e.j = a))) ≤ 1)
  ∧ (∀ e ∈ (Broad.genTrace P prev S n f).2,
      e.i ≠ e.j
      ∧ (((e.b1.awakeFlag && !e.b1.staticFlag) = false
          ∧ (e.b2.awakeFlag && !e.b2.staticFlag) = false) → e.solvers = [])
      ∧ (P.collidable e.b1 e.b2 = false → e.solvers = [])
      ∧ (P.intersects e.b1.bounds e.b2.bounds = false → e.solvers = []))
  ∧ Broad.genTemporalContactSolvers P prev S n f
      = ((Broad.genTrace P prev S n f).2.map Broad.TraceEntry.solvers).flatten := by
  refine ⟨fun a b hab => outerLoop_pair_count P prev S (List.range n)
            (List.nodup_range n) a b hab (List.range n) f (List.nodup_range n),
          fun e he => ?_, rfl⟩
  rcases outerLoop_entries P prev S (List.range n) (List.range n) f e he
    with ⟨_, _, hc⟩
  exact hc

/-- A trivial parameter pack over unit shapes/bounds/contacts used by the
C1 witness: no narrow-phase contacts, everything collidable and
intersecting. -/
noncomputable def unitBParams : Broad.BParams Unit Unit Unit :=
  { shapeType := fun _ => 0, shapeE := fun _ => 0, shapeU := fun _ => 0,
    collide := fun _ _ => [], csUpdate := fun cs _ => cs,
    intersects := fun _ _ => true, collidable := fun _ _ => true }

/-- A two-body table for the C1 witness: fresh bodies with stepCount 0. -/
noncomputable def unitBodyTable : ℕ → Broad.BBody Unit Unit :=
  fun _ => { stepCount := 0, awakeFlag := true, staticFlag := false,
             bounds := (), shapeArr := [()] }

/-- C1 witness: the contract applied to the concrete two-body world at
step counter 1 for the unordered pair {0, 1}. -/
theorem space_broadPhase_contract_witness :
    (0 : ℕ) ≠ 1
  ∧ (Broad.genTrace unitBParams [] 1 2 unitBodyTable).2.countP
      (fun e => decide ((e.i = 0 ∧ e.j = 1) ∨ (e.i = 1 ∧ e.j = 0))) ≤ 1 :=
  ⟨by decide,
   (space_broadPhase_contract unitBParams [] 1 2 unitBodyTable).1 0 1 (by decide)⟩



-- Helper lemmas for the position-solver loop.

lemma okAt_succ {σ : Type} (c j : List (σ → σ × Bool)) (s : σ) (k : ℕ) :
    PosIter.okAt c j s (k + 1) = PosIter.okAt c j (PosIter.roundState c j s) k := by
  simp [PosIter.okAt, Function.iterate_succ_apply]

lemma posLoop_solved {σ : Type} (c j : List (σ → σ × Bool)) :
    ∀ (n : ℕ) (s : σ) (acc : ℕ),
      ((PosIter.positionSolverLoop c j n s acc).solved = true
        ↔ ∃ k, k < n ∧ PosIter.okAt c j s k = true) := by
  intro n
  induction n with
  | zero =>
    intro s acc
    simp [PosIter.positionSolverLoop]
  | succ n ih =>
    intro s acc
    simp only [PosIter.positionSolverLoop]
    by_cases h : PosIter.roundOk c j s = true
    · have h' : ((PosIter.solveRound c j s).2.1 && (PosIter.solveRound c j s).2.2) = true := h
      rw [if_pos h']
      exact ⟨fun _ => ⟨0, Nat.succ_pos n, by simpa [PosIter.okAt] using h⟩, fun _ => rfl⟩
    · have h2 : PosIter.roundOk c j s = false := Bool.not_eq_true _ |>.mp h
      have h' : ¬(((PosIter.solveRound c j s).2.1 && (PosIter.solveRound c j s).2.2) = true) := h
      rw [if_neg h']
      rw [show (PosIter.solveRound c j s).1 = PosIter.roundState c j s from rfl]
      rw [ih (PosIter.roundState c j s) (acc + 1)]
      constructor
      · rintro ⟨k, hk, hok⟩
        exact ⟨k + 1, Nat.succ_lt_succ hk, by rw [okAt_succ]; exact hok⟩
      · rintro ⟨k, hk, hok⟩
        cases k with
        | zero =>
          have : PosIter.okAt c j s 0 = false := by simpa [PosIter.okAt] using h2
          rw [this] at hok
          cases hok
        | succ k' =>
          rw [okAt_succ] at hok
          exact ⟨k', Nat.lt_of_succ_lt_succ hk, hok⟩

lemma posLoop_iters_le {σ : Type} (c j : List (σ → σ × Bool)) :
    ∀ (n : ℕ) (s : σ) (acc : ℕ),
      (PosIter.positionSolverLoop c j n s acc).iters ≤ acc + n := by
  intro n
  induction n with
  | zero => intro s acc; simp [PosIter.positionSolverLoop]
  | succ n ih =>
    intro s acc
    simp only [PosIter.positionSolverLoop]
    split_ifs with h
    · exact Nat.le_add_right _ _ |>.trans (Nat.add_le_add_left (Nat.zero_le _) acc)
    · have := ih (PosIter.solveRound c j s).1 (acc + 1)
      omega

lemma posLoop_first_ok {σ : Type} (c j : List (σ → σ × Bool)) :
    ∀ (n : ℕ) (s : σ) (acc k : ℕ), k < n → PosIter.okAt c j s k = true →
      (∀ i, i < k → PosIter.okAt c j s i = false) →
      (PosIter.positionSolverLoop c j n s acc).state
          = (PosIter.roundState c j)^[k + 1] s
      ∧ (PosIter.positionSolverLoop c j n s acc).solved = true
      ∧ (PosIter.positionSolverLoop c j n s acc).iters = acc + k := by
  intro n
  induction n with
  | zero => intro s acc k hk; exact absurd hk (Nat.not_lt_zero k)
  | succ n ih =>
    intro s acc k hk hok hmin
    cases k with
    | zero =>
      have h' : ((PosIter.solveRound c j s).2.1 && (PosIter.solveRound c j s).2.2)
          = true := by simpa [PosIter.okAt, PosIter.roundOk] using hok
      simp only [PosIter.positionSolverLoop]
      rw [if_pos h']
      exact ⟨rfl, rfl, rfl⟩
    | succ k' =>
      have h0 : PosIter.okAt c j s 0 = false := hmin 0 (Nat.succ_pos k')
      have h' : ¬(((PosIter.solveRound c j s).2.1 && (PosIter.solveRound c j s).2.2)
          = true) := by
        intro hc
        rw [show ((PosIter.solveRound c j s).2.1 && (PosIter.solveRound c j s).2.2)
            = PosIter.okAt c j s 0 from by simp [PosIter.okAt, PosIter.roundOk]] at hc
        rw [h0] at hc
        cases hc
      simp only [PosIter.positionSolverLoop]
      rw [if_neg h']
      rw [show (PosIter.solveRound c j s).1 = PosIter.roundState c j s from rfl]
      have hok' : PosIter.okAt c j (PosIter.roundState c j s) k' = true := by
        rw [← okAt_succ]; exact hok
      have hmin' : ∀ i, i < k' → PosIter.okAt c j (PosIter.roundState c j s) i = false := by
        intro i hi
        rw [← okAt_succ]
        exact hmin (i + 1) (Nat.succ_lt_succ hi)
      have hres := ih (PosIter.roundState c j s) (acc + 1) k'
        (Nat.lt_of_succ_lt_succ hk) hok' hmin'
      refine ⟨?_, hres.2.1, ?_⟩
      · rw [hres.1, ← Function.iterate_succ_apply]
      · rw [hres.2.2]; omega

lemma posLoop_unsolved {σ : Type} (c j : List (σ → σ × Bool)) :
    ∀ (n : ℕ) (s : σ) (acc : ℕ),
      (PosIter.positionSolverLoop c j n s acc).solved = false →
      (PosIter.positionSolverLoop c j n s acc).state = (PosIter.roundState c j)^[n] s
      ∧ (PosIter.positionSolverLoop c j n s acc).iters = acc + n := by
  intro n
  induction n with
  | zero => intro s acc _; exact ⟨rfl, rfl⟩
  | succ n ih =>
    intro s acc hns
    simp only [PosIter.positionSolverLoop] at hns ⊢
    by_cases h : ((PosIter.solveRound c j s).2.1 && (PosIter.solveRound c j s).2.2) = true
    · rw [if_pos h] at hns
      cases hns
    · rw [if_neg h] at hns ⊢
      have := ih (PosIter.solveRound c j s).1 (acc + 1) hns
      rw [show (PosIter.solveRound c j s).1 = PosIter.roundState c j s from rfl] at this ⊢
      refine ⟨?_, by rw [this.2]; omega⟩
      rw [this.1, ← Function.iterate_succ_apply]

/-- C4: `Space.positionSolver(iteration)` runs at most `iteration` rounds
(each round solving all contact solvers and then all joints via
`solveRound`); it returns true exactly when some round of the sequential
run reports every contact solver and every joint OK within the budget;
at the first such round `k` it exits early with final state after `k+1`
rounds and `stats.positionIterations = k`; and when no round succeeds it
runs all `iteration` rounds with `positionIterations = iteration`. -/
theorem space_positionSolver_contract {σ : Type}
    (contacts joints : List (σ → σ × Bool)) (iteration : ℕ) (s : σ) :
    ((PosIter.positionSolver contacts joints iteration s).solved = true
      ↔ ∃ k, k < iteration ∧ PosIter.okAt contacts joints s k = true)
  ∧ (PosIter.positionSolver contacts joints iteration s).iters ≤ iteration
  ∧ (∀ k, k < iteration → PosIter.okAt contacts joints s k = true →
      (∀ i, i < k → PosIter.okAt contacts joints s i = false) →
      (PosIter.positionSolver contacts joints iteration s).state
          = (PosIter.roundState contacts joints)^[k + 1] s
      ∧ (PosIter.positionSolver contacts joints iteration s).iters = k)
  ∧ ((PosIter.positionSolver contacts joints iteration s).solved = false →
      (PosIter.positionSolver contacts joints iteration s).state
          = (PosIter.roundState contacts joints)^[iteration] s
      ∧ (PosIter.positionSolver contacts joints iteration s).iters = iteration) := by
  refine ⟨posLoop_solved contacts joints iteration s 0,
          by simpa using posLoop_iters_le contacts joints iteration s 0,
          fun k hk hok hmin => ?_, fun hns => ?_⟩
  · have := posLoop_first_ok contacts joints iteration s 0 k hk hok hmin
    exact ⟨this.1, by simpa using this.2.2⟩
  · have := posLoop_unsolved contacts joints iteration s 0 hns
    exact ⟨this.1, by simpa using this.2⟩

/-- C4 witness: with one incrementing contact solver over `σ := ℕ` that
reports OK from state 2 on and no joints, a budget of 5 rounds succeeds
first at round 2: two failed rounds are counted and the loop exits after
the third round. -/
theorem space_positionSolver_contract_witness :
    ((2 : ℕ) < 5 ∧ PosIter.okAt PosIter.contactsW PosIter.jointsW 0 2 = true
      ∧ (∀ i, i < 2 → PosIter.okAt PosIter.contactsW PosIter.jointsW 0 i = false))
  ∧ ((PosIter.positionSolver PosIter.contactsW PosIter.jointsW 5 0).state
        = (PosIter.roundState PosIter.contactsW PosIter.jointsW)^[3] 0
      ∧ (PosIter.positionSolver PosIter.contactsW PosIter.jointsW 5 0).iters = 2) :=
  ⟨⟨by decide, by decide, by decide⟩,
   (space_positionSolver_contract PosIter.contactsW PosIter.jointsW 5 0).2.2.1 2
     (by decide) (by decide) (by decide)⟩

-- Helper lemmas for the sleep block.

lemma sleepScan_fst (dt : ℝ) (bs : List Sleep.ZBody) (m : ℝ) :
    (Sleep.sleepScan dt bs m).1 = bs.map (Sleep.sleepBody dt) := by
  induction bs generalizing m with
  | nil => rfl
  | cons b rest ih =>
    simp only [Sleep.sleepScan, Sleep.sleepBody, List.map_cons]
    split_ifs with h1 h2 <;> simp [ih]

lemma sleepScan_snd_from_zero (dt : ℝ) (hdt : 0 ≤ dt) :
    ∀ bs : List Sleep.ZBody, (∀ b ∈ bs, 0 ≤ b.sleepTime) →
      (Sleep.sleepScan dt bs 0).2 = 0 := by
  intro bs
  induction bs with
  | nil => intro _; rfl
  | cons b rest ih =>
    intro hnn
    have hrest : ∀ b2 ∈ rest, 0 ≤ b2.sleepTime :=
      fun b2 hb2 => hnn b2 (List.mem_cons_of_mem _ hb2)
    by_cases h1 : b.dynamic = false
    · simp only [Sleep.sleepScan]
      rw [if_pos h1]
      exact ih hrest
    · by_cases h2 : Sleep.tolExceeded b
      · simp only [Sleep.sleepScan]
        rw [if_neg h1, if_pos h2]
        exact ih hrest
      · simp only [Sleep.sleepScan]
        rw [if_neg h1, if_neg h2,
            min_eq_left (add_nonneg (hnn b (List.mem_cons_self b rest)) hdt)]
        exact ih hrest

lemma sleepScan_snd_violator (dt : ℝ) (hdt : 0 ≤ dt) :
    ∀ (bs : List Sleep.ZBody) (m : ℝ), (∀ b ∈ bs, 0 ≤ b.sleepTime) →
      (∃ b ∈ bs, b.dynamic = true ∧ Sleep.tolExceeded b) →
      (Sleep.sleepScan dt bs m).2 = 0 := by
  intro bs
  induction bs with
  | nil =>
    intro m _ hex
    rcases hex with ⟨b, hb, _⟩
    cases hb
  | cons b rest ih =>
    intro m hnn hex
    have hrest : ∀ b2 ∈ rest, 0 ≤ b2.sleepTime :=
      fun b2 hb2 => hnn b2 (List.mem_cons_of_mem _ hb2)
    by_cases h1 : b.dynamic = false
    · have hex2 : ∃ c ∈ rest, c.dynamic = true ∧ Sleep.tolExceeded c := by
        rcases hex with ⟨c, hc, hcd, hct⟩
        rcases List.mem_cons.mp hc with rfl | hcr
        · rw [h1] at hcd
          exact absurd hcd (by decide)
        · exact ⟨c, hcr, hcd, hct⟩
      simp only [Sleep.sleepScan]
      rw [if_pos h1]
      exact ih m hrest hex2
    · by_cases h2 : Sleep.tolExceeded b
      · simp only [Sleep.sleepScan]
        rw [if_neg h1, if_pos h2]
        exact sleepScan_snd_from_zero dt hdt rest hrest
      · have hex2 : ∃ c ∈ rest, c.dynamic = true ∧ Sleep.tolExceeded c := by
          rcases hex with ⟨c, hc, hcd, hct⟩
          rcases List.mem_cons.mp hc with rfl | hcr
          · exact absurd hct h2
          · exact ⟨c, hcr, hcd, hct⟩
        simp only [Sleep.sleepScan]
        rw [if_neg h1, if_neg h2]
        exact ih _ hrest hex2

lemma processSleep_getD_sleepTime (bodies : List Sleep.ZBody) (dt : ℝ)
    (ps : Bool) (i : ℕ) (hi : i < bodies.length) :
    ((Sleep.processSleep bodies dt ps).getD i Sleep.zdef).sleepTime
      = (Sleep.sleepBody dt (bodies.getD i Sleep.zdef)).sleepTime := by
  unfold Sleep.processSleep
  split_ifs with h
  · rw [sleepScan_fst]
    have hlen : i < (bodies.map (Sleep.sleepBody dt)).length := by simpa using hi
    rw [getD_map_of_lt _ _ _ hlen Sleep.zdef Sleep.zdef,
        getD_map_of_lt _ _ _ hi Sleep.zdef Sleep.zdef]
    rfl
  · rw [sleepScan_fst, getD_map_of_lt _ _ _ hi Sleep.zdef Sleep.zdef]

lemma processSleep_getD_awake (bodies : List Sleep.ZBody) (dt : ℝ) (ps : Bool)
    (i : ℕ) (hi : i < bodies.length)
    (h : ps = true ∧ Sleep.TIME_TO_SLEEP ≤ (Sleep.sleepScan dt bodies 999999).2) :
    ((Sleep.processSleep bodies dt ps).getD i Sleep.zdef).awakeFlag = false := by
  unfold Sleep.processSleep
  rw [if_pos h, sleepScan_fst]
  have hlen : i < (bodies.map (Sleep.sleepBody dt)).length := by simpa using hi
  rw [getD_map_of_lt _ _ _ hlen Sleep.zdef Sleep.zdef]
  rfl

/-- C5: in the sleep block of `Space.step` (run when `allowSleep` is set),
each dynamic body's `sleepTime` grows by `dt` when both velocity
tolerances hold and is reset to zero otherwise, any dynamic body above
tolerance forces the scanned world minimum to zero, and when the position
solver reported solved and the scanned minimum reaches `TIME_TO_SLEEP`
every body (in particular every dynamic one) is put to sleep. -/
theorem step_sleep_management (bodies : List Sleep.ZBody) (dt : ℝ)
    (positionSolved : Bool)
    (hdt : 0 ≤ dt) (hnn : ∀ b ∈ bodies, 0 ≤ b.sleepTime) :
    (∀ i, i < bodies.length →
      (bodies.getD i Sleep.zdef).dynamic = true →
        ((¬ Sleep.tolExceeded (bodies.getD i Sleep.zdef) →
            ((Sleep.processSleep bodies dt positionSolved).getD i Sleep.zdef).sleepTime
              = (bodies.getD i Sleep.zdef).sleepTime + dt)
        ∧ (Sleep.tolExceeded (bodies.getD i Sleep.zdef) →
            ((Sleep.processSleep bodies dt positionSolved).getD i Sleep.zdef).sleepTime
              = 0)))
  ∧ ((∃ b ∈ bodies, b.dynamic = true ∧ Sleep.tolExceeded b) →
      (Sleep.sleepScan dt bodies 999999).2 = 0)
  ∧ ((positionSolved = true
        ∧ Sleep.TIME_TO_SLEEP ≤ (Sleep.sleepScan dt bodies 999999).2) →
      ∀ i, i < bodies.length →
        ((Sleep.processSleep bodies dt positionSolved).getD i Sleep.zdef).awakeFlag
          = false) := by
  refine ⟨fun i hi hdyn => ⟨fun hok => ?_, fun hex => ?_⟩,
          fun hex => sleepScan_snd_violator dt hdt bodies 999999 hnn hex,
          fun h i hi => processSleep_getD_awake bodies dt positionSolved i hi h⟩
  · rw [processSleep_getD_sleepTime bodies dt positionSolved i hi]
    unfold Sleep.sleepBody
    rw [if_neg (by rw [hdyn]; decide), if_neg hok]
  · rw [processSleep_getD_sleepTime bodies dt positionSolved i hi]
    unfold Sleep.sleepBody
    rw [if_neg (by rw [hdyn]; decide), if_pos hex]

/-- C5 witness: at the concrete two-body world (one still dynamic body,
one moving above the linear tolerance) with `dt = 1/10`, the moving body
forces the scanned minimum sleep time to zero. -/
theorem step_sleep_management_witness :
    ((0 : ℝ) ≤ 1 / 10)
  ∧ (∃ b ∈ [Sleep.bzA, Sleep.bzB], b.dynamic = true ∧ Sleep.tolExceeded b)
  ∧ (Sleep.sleepScan (1 / 10) [Sleep.bzA, Sleep.bzB] 999999).2 = 0 := by
  have hex : ∃ b ∈ [Sleep.bzA, Sleep.bzB], b.dynamic = true ∧ Sleep.tolExceeded b := by
    refine ⟨Sleep.bzB, by simp, rfl, Or.inr ?_⟩
    norm_num [Sleep.bzB, Vec2.dot, Sleep.SLEEP_LINEAR_TOLERANCE]
  refine ⟨by norm_num, hex, ?_⟩
  exact (step_sleep_management [Sleep.bzA, Sleep.bzB] (1 / 10) true (by norm_num)
    (by intro b hb; rcases List.mem_cons.mp hb with rfl | hb2
        · norm_num [Sleep.bzA]
        · rcases List.mem_cons.mp hb2 with rfl | hb3
          · norm_num [Sleep.bzB]
          · cases hb3)).2.1 hex

/-- C9 (amended): in the velocity-integration phase of `Space.step`, with
zero gravity and zero accumulated force/torque, every awake dynamic body's
`v` and `w` are multiplied by the step's damping factor, which equals
`damping^dt` when `damping < 1` but is the constant 1 when `damping ≥ 1`
(so the original claim's "for every value of the damping coefficient"
fails for damping > 1). -/
theorem step_velocity_damping (damping dt : ℝ) (gravity : Vec2)
    (bodies : List Damp.DBody) (i : ℕ)
    (hi : i < bodies.length)
    (hg : gravity = Vec2.zero)
    (hf : (bodies.getD i Damp.ddef).force = Vec2.zero)
    (ht : (bodies.getD i Damp.ddef).torque = 0)
    (hdyn : (bodies.getD i Damp.ddef).dynamic = true)
    (haw : (bodies.getD i Damp.ddef).awakeFlag = true) :
    ((Damp.integrateVelocities bodies gravity damping dt).getD i Damp.ddef).v
        = Vec2.scale (bodies.getD i Damp.ddef).v (Damp.dampingFactor damping dt)
  ∧ ((Damp.integrateVelocities bodies gravity damping dt).getD i Damp.ddef).w
        = Damp.dampingFactor damping dt * (bodies.getD i Damp.ddef).w
  ∧ (damping < 1 → Damp.dampingFactor damping dt = Real.rpow damping dt)
  ∧ (1 ≤ damping → Damp.dampingFactor damping dt = 1) := by
  have h1 := getD_map_of_lt
    (fun b => if b.dynamic && b.awakeFlag then
        Damp.updateVelocity b gravity (Damp.dampingFactor damping dt) dt
      else b) bodies i hi Damp.ddef Damp.ddef
  have h2 : (Damp.integrateVelocities bodies gravity damping dt).getD i Damp.ddef
      = Damp.updateVelocity (bodies.getD i Damp.ddef) gravity
          (Damp.dampingFactor damping dt) dt := by
    rw [Damp.integrateVelocities, h1, hdyn, haw]
    simp
  refine ⟨?_, ?_, fun h => by simp only [Damp.dampingFactor]; exact if_pos h,
          fun h => by simp only [Damp.dampingFactor]; exact if_neg (not_lt.mpr h)⟩
  · rw [h2, hg]
    show Vec2.scale
        (Vec2.add (bodies.getD i Damp.ddef).v
          (Vec2.scale
            (Vec2.add Vec2.zero
              (Vec2.scale (bodies.getD i Damp.ddef).force (bodies.getD i Damp.ddef).m_inv))
            dt))
        (Damp.dampingFactor damping dt)
      = Vec2.scale (bodies.getD i Damp.ddef).v (Damp.dampingFactor damping dt)
    rw [hf]
    simp only [Vec2.add, Vec2.scale, Vec2.zero]
    congr 1 <;> ring
  · rw [h2]
    show Damp.dampingFactor damping dt
        * ((bodies.getD i Damp.ddef).w
            + dt * (bodies.getD i Damp.ddef).torque * (bodies.getD i Damp.ddef).i_inv)
      = Damp.dampingFactor damping dt * (bodies.getD i Damp.ddef).w
    rw [ht]
    ring

/-- C9 counterexample: with `damping = 2` and `dt = 1` the step leaves the
body's velocity unchanged (`v.x` stays 1), while the original claim's
multiplier `damping^dt = 2^1` would double it — so velocities are not
multiplied by `damping^dt` for damping above 1. -/
theorem step_velocity_damping_counterexample :
    ((Damp.integrateVelocities [Damp.bodyD] Vec2.zero 2 1).getD 0 Damp.ddef).v.x = 1
  ∧ Real.rpow 2 1 * Damp.bodyD.v.x
      ≠ ((Damp.integrateVelocities [Damp.bodyD] Vec2.zero 2 1).getD 0 Damp.ddef).v.x := by
  have h : ((Damp.integrateVelocities [Damp.bodyD] Vec2.zero 2 1).getD 0 Damp.ddef).v.x
      = 1 := by
    norm_num [Damp.integrateVelocities, Damp.updateVelocity, Damp.dampingFactor,
      Damp.bodyD, Vec2.add, Vec2.scale, Vec2.zero, List.getD]
  refine ⟨h, ?_⟩
  rw [h, show Real.rpow (2 : ℝ) 1 = (2 : ℝ) ^ (1 : ℝ) from rfl, Real.rpow_one,
      show Damp.bodyD.v.x = (1 : ℝ) from rfl]
  norm_num

/-- C9 witness: the amended theorem applied at the concrete one-body world
with `damping = 2`, `dt = 1`. -/
theorem step_velocity_damping_witness :
    (0 < ([Damp.bodyD] : List Damp.DBody).length)
  ∧ (((Damp.integrateVelocities [Damp.bodyD] Vec2.zero 2 1).getD 0 Damp.ddef).v
        = Vec2.scale (([Damp.bodyD] : List Damp.DBody).getD 0 Damp.ddef).v
            (Damp.dampingFactor 2 1)
      ∧ ((Damp.integrateVelocities [Damp.bodyD] Vec2.zero 2 1).getD 0 Damp.ddef).w
        = Damp.dampingFactor 2 1 * (([Damp.bodyD] : List Damp.DBody).getD 0 Damp.ddef).w
      ∧ ((2 : ℝ) < 1 → Damp.dampingFactor 2 1 = Real.rpow 2 1)
      ∧ ((1 : ℝ) ≤ 2 → Damp.dampingFactor 2 1 = 1)) :=
  ⟨by norm_num,
   step_velocity_damping 2 1 Vec2.zero [Damp.bodyD] 0 (by norm_num) rfl rfl rfl rfl rfl⟩

-- Helper lemmas for the Space registry.

lemma mapBody_ids (i : ℕ) (g : Scene.BodyT → Scene.BodyT)
    (hg : ∀ b, (g b).id = b.id) :
    ∀ h : List Scene.BodyT,
      (Scene.mapBody h i g).map Scene.BodyT.id = h.map Scene.BodyT.id := by
  intro h
  induction h with
  | nil => rfl
  | cons b t ih =>
    simp only [Scene.mapBody, List.map_cons] at ih ⊢
    rw [ih]
    congr 1
    split_ifs with hb
    · exact hg b
    · rfl

lemma length_filter_ne_ids {α : Type} (pr : α → ℕ) :
    ∀ l : List α, (l.map pr).Nodup → ∀ v : ℕ, (∃ x ∈ l, pr x = v) →
      (l.filter (fun x => decide (pr x ≠ v))).length = l.length - 1 := by
  intro l
  induction l with
  | nil =>
    intro _ v hx
    rcases hx with ⟨x, hx, _⟩
    cases hx
  | cons x t ih =>
    intro hnd v hex
    have hnd' : (pr x :: t.map pr).Nodup := by simpa using hnd
    simp only [List.filter_cons]
    by_cases hxv : pr x = v
    · rw [if_neg (by simp [hxv])]
      have ht : ∀ y ∈ t, pr y ≠ v := by
        intro y hy hyv
        exact (List.nodup_cons.mp hnd').1
          (by rw [hxv, ← hyv]; exact List.mem_map_of_mem pr hy)
      have hkeep : t.filter (fun y => decide (pr y ≠ v)) = t :=
        List.filter_eq_self.mpr (fun y hy => by simpa using ht y hy)
      rw [hkeep]
      simp
    · rw [if_pos (by simp [hxv])]
      have hex2 : ∃ y ∈ t, pr y = v := by
        rcases hex with ⟨z, hz, hzv⟩
        rcases List.mem_cons.mp hz with rfl | hzt
        · exact absurd hzv hxv
        · exact ⟨z, hzt, hzv⟩
      have hpos : 0 < t.length := by
        rcases hex2 with ⟨z, hz, _⟩
        exact List.length_pos.mpr (List.ne_nil_of_mem hz)
      simp only [List.length_cons]
      rw [ih (List.nodup_cons.mp hnd').2 v hex2]
      omega

lemma filter_ids_nodup {α : Type} (pr : α → ℕ) (l : List α) (p : α → Bool)
    (hnd : (l.map pr).Nodup) : ((l.filter p).map pr).Nodup :=
  List.Nodup.sublist (List.Sublist.map pr (List.filter_sublist l)) hnd

lemma mapBody_ids_wake (i : ℕ) (h : List Scene.BodyT) :
    (Scene.mapBody h i (fun b => { b with awakeFlag := true })).map Scene.BodyT.id
      = h.map Scene.BodyT.id :=
  mapBody_ids i (fun b => { b with awakeFlag := true }) (fun _ => rfl) h

lemma mapBody_ids_filterJ (i jid : ℕ) (h : List Scene.BodyT) :
    (Scene.mapBody h i (fun b =>
        { b with jointList := b.jointList.filter (fun j2 => decide (j2.id ≠ jid)) })).map
      Scene.BodyT.id = h.map Scene.BodyT.id :=
  mapBody_ids i (fun b =>
    { b with jointList := b.jointList.filter (fun j2 => decide (j2.id ≠ jid)) })
    (fun _ => rfl) h

lemma mapBody_ids_setJ (i : ℕ) (j : Scene.JointT) (h : List Scene.BodyT) :
    (Scene.mapBody h i (fun b =>
        { b with jointList := Scene.jsSetJoint b.jointList j })).map
      Scene.BodyT.id = h.map Scene.BodyT.id :=
  mapBody_ids i (fun b => { b with jointList := Scene.jsSetJoint b.jointList j })
    (fun _ => rfl) h

lemma removeJoint_bodyIds (s : Scene.SpaceT) (j : Scene.JointT) :
    (Scene.removeJoint s j).bodyHash.map Scene.BodyT.id
      = s.bodyHash.map Scene.BodyT.id := by
  unfold Scene.removeJoint
  split_ifs with h
  · simp only [mapBody_ids_wake, mapBody_ids_filterJ]
  · rfl

lemma addJoint_bodyIds (s : Scene.SpaceT) (j : Scene.JointT) :
    (Scene.addJoint s j).bodyHash.map Scene.BodyT.id
      = s.bodyHash.map Scene.BodyT.id := by
  unfold Scene.addJoint
  split_ifs with h
  · rfl
  · simp only [mapBody_ids_wake, mapBody_ids_setJ]

lemma addJoint_numBodies (s : Scene.SpaceT) (j : Scene.JointT) :
    (Scene.addJoint s j).numBodies = s.numBodies := by
  unfold Scene.addJoint
  split_ifs <;> rfl

lemma removeJoint_numBodies (s : Scene.SpaceT) (j : Scene.JointT) :
    (Scene.removeJoint s j).numBodies = s.numBodies := by
  unfold Scene.removeJoint
  split_ifs <;> rfl

lemma wf_removeJoint (s : Scene.SpaceT) (j : Scene.JointT) (h : Scene.WF s) :
    Scene.WF (Scene.removeJoint s j) := by
  rcases h with ⟨hb, hj, hbn, hjn⟩
  by_cases hp : (Scene.lookupJoint s j.id).isSome = true
  · have hex : ∃ x ∈ s.jointHash, x.id = j.id := by
      rcases Option.isSome_iff_exists.mp hp with ⟨x, hx⟩
      have hm := List.mem_of_find?_eq_some hx
      have hpx := List.find?_some hx
      simp only [decide_eq_true_eq] at hpx
      exact ⟨x, hm, hpx⟩
    have hlen := length_filter_ne_ids Scene.JointT.id s.jointHash hjn j.id hex
    have hids := removeJoint_bodyIds s j
    have hnum := removeJoint_numBodies s j
    refine ⟨?_, ?_, ?_, ?_⟩
    · rw [hnum, hb]
      have := congrArg List.length hids
      simpa using this.symm
    · show (Scene.removeJoint s j).numJoints
        = (Scene.removeJoint s j).jointHash.length
      unfold Scene.removeJoint
      rw [if_pos hp]
      show s.numJoints - 1
        = (s.jointHash.filter (fun j2 => decide (j2.id ≠ j.id))).length
      rw [hlen, hj]
    · rw [hids]; exact hbn
    · show ((Scene.removeJoint s j).jointHash.map Scene.JointT.id).Nodup
      unfold Scene.removeJoint
      rw [if_pos hp]
      exact filter_ids_nodup Scene.JointT.id s.jointHash _ hjn
  · unfold Scene.removeJoint
    rw [if_neg hp]
    exact ⟨hb, hj, hbn, hjn⟩

lemma lookup_none_ids (s : Scene.SpaceT) (i : ℕ)
    (hp : ¬((Scene.lookupBody s i).isSome = true)) :
    ∀ x ∈ s.bodyHash, x.id ≠ i := by
  intro x hx
  have hnone : Scene.lookupBody s i = none := by
    cases hfind : Scene.lookupBody s i with
    | none => rfl
    | some y => rw [hfind] at hp; exact absurd rfl hp
  have := List.find?_eq_none.mp hnone x hx
  simpa using this

lemma lookupJ_none_ids (s : Scene.SpaceT) (i : ℕ)
    (hp : ¬((Scene.lookupJoint s i).isSome = true)) :
    ∀ x ∈ s.jointHash, x.id ≠ i := by
  intro x hx
  have hnone : Scene.lookupJoint s i = none := by
    cases hfind : Scene.lookupJoint s i with
    | none => rfl
    | some y => rw [hfind] at hp; exact absurd rfl hp
  have := List.find?_eq_none.mp hnone x hx
  simpa using this

lemma wf_addBody (s : Scene.SpaceT) (b : Scene.BodyT) (h : Scene.WF s) :
    Scene.WF (Scene.addBody s b) := by
  rcases h with ⟨hb, hj, hbn, hjn⟩
  unfold Scene.addBody
  split_ifs with hp
  · exact ⟨hb, hj, hbn, hjn⟩
  · refine ⟨?_, hj, ?_, hjn⟩
    · show s.numBodies + 1 = (s.bodyHash ++ [{ b with awakeFlag := true }]).length
      rw [List.length_append, hb]
      rfl
    · show ((s.bodyHash ++ [{ b with awakeFlag := true }]).map Scene.BodyT.id).Nodup
      rw [List.map_append]
      rw [List.nodup_append]
      refine ⟨hbn, List.nodup_singleton _, ?_⟩
      intro a ha ha2
      rcases List.mem_map.mp ha with ⟨x, hx, hxa⟩
      have ha3 : a = b.id := by simpa using ha2
      exact lookup_none_ids s b.id hp x hx (by rw [hxa, ha3])

lemma wf_addJoint (s : Scene.SpaceT) (j : Scene.JointT) (h : Scene.WF s) :
    Scene.WF (Scene.addJoint s j) := by
  rcases h with ⟨hb, hj, hbn, hjn⟩
  by_cases hp : (Scene.lookupJoint s j.id).isSome = true
  · unfold Scene.addJoint
    rw [if_pos hp]
    exact ⟨hb, hj, hbn, hjn⟩
  · refine ⟨?_, ?_, ?_, ?_⟩
    · rw [addJoint_numBodies, hb]
      have := congrArg List.length (addJoint_bodyIds s j)
      simpa using this.symm
    · show (Scene.addJoint s j).numJoints = (Scene.addJoint s j).jointHash.length
      unfold Scene.addJoint
      rw [if_neg hp]
      show s.numJoints + 1 = (s.jointHash ++ [j]).length
      rw [List.length_append, hj]
      rfl
    · rw [addJoint_bodyIds]
      exact hbn
    · show ((Scene.addJoint s j).jointHash.map Scene.JointT.id).Nodup
      unfold Scene.addJoint
      rw [if_neg hp]
      show ((s.jointHash ++ [j]).map Scene.JointT.id).Nodup
      rw [List.map_append, List.nodup_append]
      refine ⟨hjn, List.nodup_singleton _, ?_⟩
      intro a ha ha2
      rcases List.mem_map.mp ha with ⟨x, hx, hxa⟩
      have ha3 : a = j.id := by simpa using ha2
      exact lookupJ_none_ids s j.id hp x hx (by rw [hxa, ha3])

lemma fold_removeJoint_wf (l : List Scene.JointT) :
    ∀ s : Scene.SpaceT, Scene.WF s → Scene.WF (l.foldl Scene.removeJoint s)
      ∧ (l.foldl Scene.removeJoint s).bodyHash.map Scene.BodyT.id
          = s.bodyHash.map Scene.BodyT.id
      ∧ (l.foldl Scene.removeJoint s).numBodies = s.numBodies := by
  induction l with
  | nil => intro s hs; exact ⟨hs, rfl, rfl⟩
  | cons j t ih =>
    intro s hs
    have h1 := wf_removeJoint s j hs
    rcases ih (Scene.removeJoint s j) h1 with ⟨ha, hb2, hc⟩
    refine ⟨ha, ?_, ?_⟩
    · rw [List.foldl_cons, hb2, removeJoint_bodyIds]
    · rw [List.foldl_cons, hc, removeJoint_numBodies]

lemma wf_removeBody (s : Scene.SpaceT) (b : Scene.BodyT) (h : Scene.WF s) :
    Scene.WF (Scene.removeBody s b) := by
  unfold Scene.removeBody
  split_ifs with hp
  · rcases fold_removeJoint_wf b.jointList s h with ⟨h1, hids, hnum⟩
    rcases h1 with ⟨hb1, hj1, hbn1, hjn1⟩
    have hex : ∃ x ∈ (b.jointList.foldl Scene.removeJoint s).bodyHash,
        x.id = b.id := by
      rcases Option.isSome_iff_exists.mp hp with ⟨x, hx⟩
      have hm := List.mem_of_find?_eq_some hx
      have hpx := List.find?_some hx
      simp only [decide_eq_true_eq] at hpx
      have : b.id ∈ (b.jointList.foldl Scene.removeJoint s).bodyHash.map
          Scene.BodyT.id := by
        rw [hids]
        exact hpx ▸ List.mem_map_of_mem Scene.BodyT.id hm
      rcases List.mem_map.mp this with ⟨y, hy, hyid⟩
      exact ⟨y, hy, hyid⟩
    have hlen := length_filter_ne_ids Scene.BodyT.id
      (b.jointList.foldl Scene.removeJoint s).bodyHash hbn1 b.id hex
    refine ⟨?_, hj1, ?_, hjn1⟩
    · show (b.jointList.foldl Scene.removeJoint s).numBodies - 1 = _
      rw [hlen, hb1]
    · exact filter_ids_nodup Scene.BodyT.id _ _ hbn1
  · exact h

/-- C10: the four registry operations are guarded no-ops at the public
interface — `addBody`/`addJoint` with an already-registered id and
`removeBody`/`removeJoint` with an unregistered id leave the Space
unchanged — and each of the four preserves the invariant that
`numBodies`/`numJoints` equal the number of registered bodies/joints
(with unique ids). -/
theorem space_registry_guarded_ops (s : Scene.SpaceT) (b : Scene.BodyT)
    (j : Scene.JointT) :
    ((Scene.lookupBody s b.id).isSome = true → Scene.addBody s b = s)
  ∧ ((Scene.lookupBody s b.id).isSome = false → Scene.removeBody s b = s)
  ∧ ((Scene.lookupJoint s j.id).isSome = true → Scene.addJoint s j = s)
  ∧ ((Scene.lookupJoint s j.id).isSome = false → Scene.removeJoint s j = s)
  ∧ (Scene.WF s →
      Scene.WF (Scene.addBody s b) ∧ Scene.WF (Scene.removeBody s b)
      ∧ Scene.WF (Scene.addJoint s j) ∧ Scene.WF (Scene.removeJoint s j)) := by
  refine ⟨fun h => ?_, fun h => ?_, fun h => ?_, fun h => ?_,
          fun hwf => ⟨wf_addBody s b hwf, wf_removeBody s b hwf,
                      wf_addJoint s j hwf, wf_removeJoint s j hwf⟩⟩
  · unfold Scene.addBody
    rw [if_pos h]
  · unfold Scene.removeBody
    rw [if_neg (by rw [h]; exact Bool.false_ne_true)]
  · unfold Scene.addJoint
    rw [if_pos h]
  · unfold Scene.removeJoint
    rw [if_neg (by rw [h]; exact Bool.false_ne_true)]

/-- C10 witness: on the concrete one-body space, re-adding the registered
body is a no-op, removing the unregistered joint is a no-op, and the
invariant holds before and after. -/
theorem space_registry_guarded_ops_witness :
    ((Scene.lookupBody regSpace regBody.id).isSome = true
      ∧ Scene.addBody regSpace regBody = regSpace)
  ∧ ((Scene.lookupJoint regSpace regJoint.id).isSome = false
      ∧ Scene.removeJoint regSpace regJoint = regSpace)
  ∧ (Scene.WF regSpace ∧ Scene.WF (Scene.addBody regSpace regBody)) := by
  have h := space_registry_guarded_ops regSpace regBody regJoint
  have h1 : (Scene.lookupBody regSpace regBody.id).isSome = true := rfl
  have h4 : (Scene.lookupJoint regSpace regJoint.id).isSome = false := rfl
  have hwf : Scene.WF regSpace := by
    refine ⟨rfl, rfl, ?_, ?_⟩ <;> simp [regSpace, regBody]
  exact ⟨⟨h1, h.1 h1⟩, ⟨h4, h.2.2.2.1 h4⟩, hwf, (h.2.2.2.2 hwf).1⟩

-- Helper lemmas for scene loading.

lemma loadShapesLoop_some : ∀ cfgs : List Scene.ShapeCfg,
    (∀ sc ∈ cfgs, sc.stype = "ShapeCircle" ∨ sc.stype = "ShapeSegment"
      ∨ sc.stype = "ShapePoly") →
    ∀ (prev : Option Scene.ShapeT) (acc : List Scene.ShapeT),
      (Scene.loadShapesLoop cfgs prev acc).isSome = true := by
  intro cfgs
  induction cfgs with
  | nil => intro _ prev acc; rfl
  | cons c rest ih =>
    intro hv prev acc
    have htail : ∀ sc ∈ rest, sc.stype = "ShapeCircle"
        ∨ sc.stype = "ShapeSegment" ∨ sc.stype = "ShapePoly" :=
      fun sc hsc => hv sc (List.mem_cons_of_mem c hsc)
    have hg : ∃ g, Scene.shapeSwitch c = some g := by
      rcases hv c (List.mem_cons_self c rest) with h | h | h <;>
        simp [Scene.shapeSwitch, h]
    rcases hg with ⟨g, hg⟩
    simp only [Scene.loadShapesLoop, hg]
    exact ih htail _ _

lemma loadBodies_ok : ∀ bs : List Scene.BodyCfg,
    (∀ bc ∈ bs, ∀ sc ∈ bc.shapes, sc.stype = "ShapeCircle"
      ∨ sc.stype = "ShapeSegment" ∨ sc.stype = "ShapePoly") →
    ∀ (s : Scene.SpaceT) (prev : Option Scene.ShapeT), Scene.IdFresh s →
      (Scene.loadBodies bs s prev).2.2 = none
      ∧ (Scene.loadBodies bs s prev).1.numBodies = s.numBodies + bs.length
      ∧ (Scene.loadBodies bs s prev).1.jointHash = s.jointHash
      ∧ (Scene.loadBodies bs s prev).1.numJoints = s.numJoints
      ∧ Scene.IdFresh (Scene.loadBodies bs s prev).1 := by
  intro bs
  induction bs with
  | nil => intro _ s prev hf; exact ⟨rfl, by simp [Scene.loadBodies], rfl, rfl, hf⟩
  | cons bc rest ih =>
    intro hv s prev hf
    have htail : ∀ b2 ∈ rest, ∀ sc ∈ b2.shapes, sc.stype = "ShapeCircle"
        ∨ sc.stype = "ShapeSegment" ∨ sc.stype = "ShapePoly" :=
      fun b2 hb2 => hv b2 (List.mem_cons_of_mem bc hb2)
    obtain ⟨out, hout⟩ : ∃ out, Scene.loadShapesLoop bc.shapes prev [] = some out :=
      Option.isSome_iff_exists.mp
        (loadShapesLoop_some bc.shapes (hv bc (List.mem_cons_self bc rest)) prev [])
    have hguard : ¬(((Scene.lookupBody
        { s with bodyIdCounter := s.bodyIdCounter + 1 } s.bodyIdCounter).isSome)
          = true) := by
      intro hc
      rcases Option.isSome_iff_exists.mp hc with ⟨x, hx⟩
      have hm := List.mem_of_find?_eq_some hx
      have hpx := List.find?_some hx
      simp only [decide_eq_true_eq] at hpx
      exact absurd (hpx ▸ hf x hm) (lt_irrefl s.bodyIdCounter)
    simp only [Scene.loadBodies, hout]
    have hadd : ∀ body : Scene.BodyT, body.id = s.bodyIdCounter →
        Scene.addBody { s with bodyIdCounter := s.bodyIdCounter + 1 } body
          = { s with bodyIdCounter := s.bodyIdCounter + 1,
                     bodyHash := s.bodyHash ++ [{ body with awakeFlag := true }],
                     numBodies := s.numBodies + 1 } := by
      intro body hid
      unfold Scene.addBody
      rw [if_neg (by rw [hid]; exact hguard)]
    rw [hadd _ rfl]
    have hf2 : Scene.IdFresh
        { s with
          bodyIdCounter := s.bodyIdCounter + 1,
          bodyHash := s.bodyHash ++
            [{ id := s.bodyIdCounter,
               btype := if bc.btype = "static" then Scene.BodyType.staticBody
                        else Scene.BodyType.dynamicBody,
               pos := bc.position, angle := bc.angle, shapes := out.1,
               jointList := [], awakeFlag := true }],
          numBodies := s.numBodies + 1 } := by
      intro x hx
      rcases List.mem_append.mp hx with hmem | hmem
      · exact Nat.lt_succ_of_lt (hf x hmem)
      · rcases List.mem_singleton.mp hmem with rfl
        exact Nat.lt_succ_self _
    rcases ih htail _ out.2 hf2 with ⟨h1, h2, h3, h4, h5⟩
    refine ⟨h1, ?_, h3, h4, h5⟩
    rw [h2]
    show s.numBodies + 1 + rest.length = s.numBodies + (rest.length + 1)
    omega

/-- C7 (amended): `Space.create` on a scene whose bodies are all
well-formed and whose first joint has a kind the switch does not handle
aborts with a generic `TypeError` (from writing a property of the
`undefined` joint variable) and leaves every loaded body registered —
the world is not restored to the cleared state, and the error kind does
not distinguish the three invalid-input categories. -/
theorem space_create_invalid_scene (bs : List Scene.BodyCfg)
    (jc : Scene.JointCfg) (rest : List Scene.JointCfg)
    (hv : ∀ bc ∈ bs, ∀ sc ∈ bc.shapes, sc.stype = "ShapeCircle"
      ∨ sc.stype = "ShapeSegment" ∨ sc.stype = "ShapePoly")
    (hunk : ¬ Scene.knownJointKind jc.jtype) :
    (Scene.create ⟨bs, jc :: rest⟩ Scene.emptySpace).2
        = some Scene.JsErr.typeError
  ∧ (Scene.create ⟨bs, jc :: rest⟩ Scene.emptySpace).1.numBodies = bs.length := by
  have hfresh : Scene.IdFresh (Scene.clear Scene.emptySpace) := by
    intro b hb
    cases hb
  rcases loadBodies_ok bs hv (Scene.clear Scene.emptySpace) none hfresh
    with ⟨h1, h2, _, _, _⟩
  have hcreate : Scene.create ⟨bs, jc :: rest⟩ Scene.emptySpace
      = Scene.loadJoints (jc :: rest)
          (Scene.loadBodies bs (Scene.clear Scene.emptySpace) none).1 none := by
    show (match (Scene.loadBodies bs (Scene.clear Scene.emptySpace) none).2.2 with
          | some err =>
            ((Scene.loadBodies bs (Scene.clear Scene.emptySpace) none).1, some err)
          | none =>
            Scene.loadJoints (jc :: rest)
              (Scene.loadBodies bs (Scene.clear Scene.emptySpace) none).1 none)
        = Scene.loadJoints (jc :: rest)
            (Scene.loadBodies bs (Scene.clear Scene.emptySpace) none).1 none
    rw [h1]
  have hjoints : Scene.loadJoints (jc :: rest)
      (Scene.loadBodies bs (Scene.clear Scene.emptySpace) none).1 none
      = ((Scene.loadBodies bs (Scene.clear Scene.emptySpace) none).1,
         some Scene.JsErr.typeError) := by
    show (if Scene.knownJointKind jc.jtype then _ else _)
        = ((Scene.loadBodies bs (Scene.clear Scene.emptySpace) none).1,
           some Scene.JsErr.typeError)
    rw [if_neg hunk]
  rw [hcreate, hjoints]
  refine ⟨rfl, ?_⟩
  show (Scene.loadBodies bs (Scene.clear Scene.emptySpace) none).1.numBodies
      = bs.length
  rw [h2, show (Scene.clear Scene.emptySpace).numBodies = 0 from rfl,
      Nat.zero_add]

/-- C7 counterexample: on the concrete scene with one valid body and one
joint of unknown kind `"FooJoint"`, `Space.create` raises a `TypeError`
but the world is NOT left in the cleared state — the loaded body remains
registered (`numBodies = 1 ≠ 0`), refuting the claim. -/
theorem space_create_invalid_scene_counterexample :
    (Scene.create ⟨[plainBodyCfg], [fooJointCfg]⟩ Scene.emptySpace).2
        = some Scene.JsErr.typeError
  ∧ ¬((Scene.create ⟨[plainBodyCfg], [fooJointCfg]⟩ Scene.emptySpace).1.numBodies
        = 0) := by
  constructor
  · rfl
  · intro hc
    exact absurd
      ((rfl :
        (Scene.create ⟨[plainBodyCfg], [fooJointCfg]⟩ Scene.emptySpace).1.numBodies
          = 1).symm.trans hc) one_ne_zero

/-- C7 witness: the amended theorem applied at the concrete scene. -/
theorem space_create_invalid_scene_witness :
    (∀ bc ∈ [plainBodyCfg], ∀ sc ∈ bc.shapes, sc.stype = "ShapeCircle"
      ∨ sc.stype = "ShapeSegment" ∨ sc.stype = "ShapePoly")
  ∧ ¬ Scene.knownJointKind fooJointCfg.jtype
  ∧ ((Scene.create ⟨[plainBodyCfg], [fooJointCfg]⟩ Scene.emptySpace).2
        = some Scene.JsErr.typeError
      ∧ (Scene.create ⟨[plainBodyCfg], [fooJointCfg]⟩ Scene.emptySpace).1.numBodies
        = [plainBodyCfg].length) := by
  have hv : ∀ bc ∈ [plainBodyCfg], ∀ sc ∈ bc.shapes, sc.stype = "ShapeCircle"
      ∨ sc.stype = "ShapeSegment" ∨ sc.stype = "ShapePoly" := by
    intro bc hbc sc hsc
    rcases List.mem_singleton.mp hbc with rfl
    simp only [plainBodyCfg] at hsc
    cases hsc
  have hunk : ¬ Scene.knownJointKind fooJointCfg.jtype := by
    intro hc
    rcases hc with h | h | h | h | h | h <;> exact absurd h (by decide)
  exact ⟨hv, hunk, space_create_invalid_scene [plainBodyCfg] fooJointCfg [] hv hunk⟩

/-- C8 (evidence for the code bug): serialization does not round-trip for
worlds containing a RopeJoint.  `RopeJoint.serialize` (source line 46)
emits the kind tag `"RopeJoint"`, but the joint switch of `Space.create`
(source lines 283–312) has no case for it, so loading the serialized
world throws a `TypeError` (writing `collideConnected` on the `undefined`
joint variable): the bodies load, the joint is lost, and re-serializing
the reloaded world yields an empty joint list instead of the original's
one-element list. -/
theorem rope_serialization_not_loadable :
    ((Scene.toJSON ropeWorld).joints.map Scene.JointCfg.jtype) = ["RopeJoint"]
  ∧ (Scene.create (Scene.toJSON ropeWorld) Scene.emptySpace).2
      = some Scene.JsErr.typeError
  ∧ (Scene.create (Scene.toJSON ropeWorld) Scene.emptySpace).1.numBodies = 2
  ∧ (Scene.create (Scene.toJSON ropeWorld) Scene.emptySpace).1.numJoints = 0
  ∧ (Scene.toJSON
      (Scene.create (Scene.toJSON ropeWorld) Scene.emptySpace).1).joints = [] :=
  ⟨rfl, rfl, rfl, rfl, rfl⟩

/-- C6 (evidence for the code bug): with coincident world anchors the
divisor `dist` that `solvePositionConstraints` divides by at source
line 157 (`u = vec2.scale(d, 1 / dist)`) evaluates to exactly 0 — the
function has no degenerate-direction guard, unlike `initSolver` — and
the call even reports the position constraint as satisfied.  Under the
IEEE semantics of the source this division produces NaN, which then
propagates into both bodies' positions and angles. -/
theorem rope_solvePosition_zero_divisor_on_coincident_anchors :
    Rope.anchorDist jointW bodyW bodyW = 0
  ∧ (Rope.solvePositionConstraints jointW bodyW bodyW).2.2 = true := by
  refine ⟨rope_anchorDist_jointW_bodyW, ?_⟩
  show decide ((Rope.anchorDist jointW bodyW bodyW - jointW.maxDistance)
      < LINEAR_SLOP) = true
  rw [rope_anchorDist_jointW_bodyW]
  exact decide_eq_true (by norm_num [jointW, LINEAR_SLOP])

end PhysRus
